import Mathlib

/-!
# Camera capture (`applications/camera_capture/camera_capture.cpp`)

A shallow embedding of the capture application of the Depth Image Processing
library: the shutdown routine `close`, the per-tick GLUT callback `display`,
the `keyboard` callback, and the initialisation performed by `main`.  The
callbacks `reshape` and `timer` only call into GLUT and are not represented;
each redisplay the timer requests is one `tick` of the main loop.

The program talks to collaborators whose sources are not part of the file:
the camera (`dip/cameras/*.h`), the HDF5 dump wrapper / dumper (`dip/io/*.h`),
the depth colorizer, `glutInit` and the allocator.  Their answers are inputs of
the model (`Env`, `TickInput`); the calls the program makes to them are
recorded, in program order, in the `trace` of the state.
-/

namespace CameraCapture

/-! ## Constants and external types -/

/-- The `kMinDepth` constant of the source. -/
def kMinDepth : Int := 64

/-- The `kMaxDepth` constant of the source. -/
def kMaxDepth : Int := 8192

/-- Stream selectors `DEPTH_SENSOR` / `COLOR_SENSOR` of `dip/common/types.h`. -/
inductive Sensor
  | DEPTH_SENSOR
  | COLOR_SENSOR
  deriving DecidableEq, Repr

/-- HDF5 element type tags used by the program. -/
inductive H5Type
  | H5T_NATIVE_INT
  | H5T_NATIVE_FLOAT
  | H5T_NATIVE_SHORT
  | H5T_NATIVE_UCHAR
  deriving DecidableEq, Repr

/-- Size in bytes of one element of an HDF5 native type. -/
def H5Type.bytes : H5Type → Nat
  | .H5T_NATIVE_INT => 4
  | .H5T_NATIVE_FLOAT => 4
  | .H5T_NATIVE_SHORT => 2
  | .H5T_NATIVE_UCHAR => 1

/-- Modelled from the spec: `sizeof(Depth)`; the declaration of `Depth` lives in
`dip/common/types.h`, which is missing.  The spec describes a depth sample as a
16-bit value. -/
def sizeofDepth : Nat := 2

/-- Modelled from the spec: `sizeof(Color)`; the declaration of `Color` lives in
`dip/common/types.h`, which is missing.  The spec describes a color sample as
three packed 8-bit channels. -/
def sizeofColor : Nat := 3

/-! ## Machine integers -/

/-- Value of an `int` expression after two's complement wrap-around to 32 bits.
Signed overflow is undefined in C++; the embedding wraps, and the facts about
whole runs are stated for runs in which `count` stays within the `int` range. -/
def wrapInt32 (v : Int) : Int := (v + 2 ^ 31) % 2 ^ 32 - 2 ^ 31

/-- Conversion of an `int` to the 64-bit unsigned `size_t` / `hsize_t`. -/
def toSize (v : Int) : Nat := (v % 2 ^ 64).toNat

/-- Multiplication in `size_t` (64-bit unsigned). -/
def sizeMul (a b : Nat) : Nat := (a * b) % 2 ^ 64

/-! ## `sprintf(group, "/FRAME%04d", count)` -/

/-- Decimal digits of `n`, least significant first, no digit for `0`;
`fuel` bounds the number of digits produced. -/
def digitsFuel : Nat → Nat → List Nat
  | 0, _ => []
  | fuel + 1, n => if n = 0 then [] else (n % 10) :: digitsFuel fuel (n / 10)

/-- The character of a decimal digit. -/
def digitChar (d : Nat) : Char := Char.ofNat (48 + d)

/-- Output of `%d` for a non-negative value: most significant digit first,
a single `0` for zero. -/
def decimal (n : Nat) : List Char :=
  if n = 0 then [Char.ofNat 48] else (digitsFuel n n).reverse.map digitChar

/-- Left padding with the character `0` up to a minimum width. -/
def zeroPad (width : Nat) (ds : List Char) : List Char :=
  List.replicate (width - ds.length) (Char.ofNat 48) ++ ds

/-- Output of the conversion `%04d`: minimum field width 4, padded with zeros
after the sign. -/
def fmt04d (v : Int) : List Char :=
  if v < 0 then Char.ofNat 45 :: zeroPad 3 (decimal v.natAbs)
  else zeroPad 4 (decimal v.toNat)

/-- The group name built by `sprintf(group, "/FRAME%04d", count)`. -/
def groupName (count : Int) : String :=
  String.mk ("/FRAME".toList ++ fmt04d count)

/-! ## `atoi` -/

/-- The C classification `isspace` on a character. -/
def isspace (c : Char) : Bool := c.toNat = 32 || (9 ≤ c.toNat && c.toNat ≤ 13)

/-- Accumulates the leading decimal digits of a character list. -/
def atoiDigits : List Char → Int → Int
  | [], acc => acc
  | c :: cs, acc =>
    if 48 ≤ c.toNat && c.toNat ≤ 57 then atoiDigits cs (acc * 10 + ((c.toNat : Int) - 48))
    else acc

/-- The C library function `strtol` in base 10 on a 64-bit `long`: optional
white space, optional sign, then the longest run of decimal digits (`0` when
there is none); a value outside the range of `long` is replaced by `LONG_MIN`
or `LONG_MAX`. -/
def strtol (s : String) : Int :=
  let value : Int :=
    match s.toList.dropWhile isspace with
    | [] => 0
    | c :: cs =>
      if c.toNat = 45 then - atoiDigits cs 0
      else if c.toNat = 43 then atoiDigits cs 0
      else atoiDigits (c :: cs) 0
  max (-2 ^ 63) (min (2 ^ 63 - 1) value)

/-- The C library function `atoi`, that is `(int) strtol(s, NULL, 10)`: the
`long` result converted to the 32-bit `int`. -/
def atoi (s : String) : Int := wrapInt32 (strtol s)

/-! ## Environment -/

/-- What the camera object answers: `enabled()`, and the per-stream geometry
`width`, `height` (stored by the program in `int` variables), `fx`, `fy`.  The
two focal lengths are `float`s that the program only copies; they are carried
as their bit patterns. -/
structure Camera where
  enabled : Bool
  width : Sensor → Int
  height : Sensor → Int
  fx : Sensor → Nat
  fy : Sensor → Nat

/-- What a call `glutInit(&argc, argv)` does: it ends the process (for example
when no display can be opened), or it returns, having taken the options it
recognises out of the argument array; `argv` is the array as the call leaves
it, an entry being `none` for a null pointer. -/
inductive GlutInit
  | exits (status : Int)
  | returns (argv : List (Option String))
  deriving DecidableEq, Repr

/-- The six `new` expressions of `main`, in program order. -/
inductive Alloc
  | camera
  | dump
  | dumper
  | depth
  | colorizedDepth
  | color
  deriving DecidableEq, Repr

/-- The collaborators of one run. -/
structure Env where
  camera : Camera
  /-- Outcome of `glutInit(&argc, argv)` on the arguments of the program. -/
  glutInit : List String → GlutInit
  /-- Answer of `g_dump->enabled()` after the dump file was created. -/
  dumpEnabled : Bool
  /-- Whether the allocator fails (throws `std::bad_alloc`) at that `new`. -/
  allocFails : Alloc → Bool
  /-- Result left in `g_colorized_depth` by `Colorize::Run`. -/
  colorize : Int → Int → Int → Int → List Nat → List Nat

/-- Outcome of one `g_camera->Update(buffer)` call: a non-zero return value
(`failed`) and the contents of the buffer after the call. -/
structure UpdateResult where
  failed : Bool
  frame : List Nat
  deriving DecidableEq, Repr

/-- Everything the outside world decides during one call of `display()`. -/
structure TickInput where
  depth : UpdateResult
  color : UpdateResult
  /-- Whether the frame store fails to store the `DEPTH` dataset. -/
  depthWriteFailed : Bool
  /-- Whether the frame store fails to store the `COLOR` dataset. -/
  colorWriteFailed : Bool
  deriving DecidableEq, Repr

/-! ## State and trace -/

/-- A scalar handed to `HDF5Wrapper::Write` through a pointer. -/
inductive Scalar
  | int (v : Int)
  | float (bits : Nat)
  deriving DecidableEq, Repr

/-- Calls made by the program to its collaborators. -/
inductive Event
  | printf (text : String)
  | glutInit (argv : List String)
  | newCamera
  | newWrapper (file : Option String)
  | compression (level : Int)
  | newDumper
  | writeScalar (name group : String) (value : Scalar) (type : H5Type)
  | update (sensor : Sensor)
  | write (name group : String) (buffer : List Nat) (bytes : Nat)
      (dimensions : List Nat) (rank : Nat) (type : H5Type) (failed : Bool)
  | colorizeRun (width height minDepth maxDepth : Int) (depth : List Nat)
  | texSubImage (width height : Int) (pixels : List Nat)
  deriving DecidableEq, Repr

/-- A global pointer: `NULL`, pointing to a live object, or deleted. -/
inductive Ptr
  | null
  | live
  | deleted
  deriving DecidableEq, Repr

/-- The globals of the program, the function-local `static int count` of
`display`, the exit status once the process has ended, and the trace. -/
structure State where
  g_camera : Ptr
  g_dump : Ptr
  g_dumper : Ptr
  g_depth : Ptr
  g_colorized_depth : Ptr
  g_color : Ptr
  /-- Contents of the buffer `g_depth` points to. -/
  depthData : List Nat
  /-- Contents of the buffer `g_colorized_depth` points to. -/
  colorizedData : List Nat
  /-- Contents of the buffer `g_color` points to. -/
  colorData : List Nat
  g_display : Sensor
  count : Int
  exited : Option Int
  trace : List Event
  deriving DecidableEq, Repr

/-- The state at program start: all pointers `NULL`, `g_display = DEPTH_SENSOR`,
`count = 0`. -/
def State.start : State :=
  { g_camera := .null, g_dump := .null, g_dumper := .null,
    g_depth := .null, g_colorized_depth := .null, g_color := .null,
    depthData := [], colorizedData := [], colorData := [],
    g_display := .DEPTH_SENSOR, count := 0, exited := none, trace := [] }

/-- Appends one call to the trace. -/
def emit (e : Event) (s : State) : State := { s with trace := s.trace ++ [e] }

/-- The effect of `if (p != NULL) delete p;`. -/
def Ptr.release : Ptr → Ptr
  | .null => .null
  | .live => .deleted
  | .deleted => .deleted

/-! ## The program -/

/-- The function `close()`: deletes every non-null global, then `exit(0)`. -/
def close (s : State) : State :=
  { s with
    g_camera := s.g_camera.release
    g_dumper := s.g_dumper.release
    g_dump := s.g_dump.release
    g_depth := s.g_depth.release
    g_colorized_depth := s.g_colorized_depth.release
    g_color := s.g_color.release
    exited := some 0 }

/-- The function `display()`, one tick.  OpenGL calls other than the texture
upload are not recorded. -/
def display (env : Env) (inp : TickInput) (s : State) : State :=
  -- Update depth image.
  let s : State := { emit (.update .DEPTH_SENSOR) s with depthData := inp.depth.frame }
  if inp.depth.failed then
    close (emit (.printf "Unable to update depth image.\n") s)
  else
  -- Update color image.
  let s : State := { emit (.update .COLOR_SENSOR) s with colorData := inp.color.frame }
  if inp.color.failed then
    close (emit (.printf "Unable to update color image.\n") s)
  else
  -- Update Dump File
  let group := groupName s.count
  -- Dump depth image.
  let s : State := emit (.write "DEPTH" group s.depthData
      (sizeMul (sizeMul sizeofDepth (toSize (env.camera.width .DEPTH_SENSOR)))
        (toSize (env.camera.height .DEPTH_SENSOR)))
      [toSize (env.camera.height .DEPTH_SENSOR), toSize (env.camera.width .DEPTH_SENSOR)]
      2 .H5T_NATIVE_SHORT inp.depthWriteFailed) s
  -- Dump color image.
  let s : State := emit (.write "COLOR" group s.colorData
      (sizeMul (sizeMul sizeofColor (toSize (env.camera.width .COLOR_SENSOR)))
        (toSize (env.camera.height .COLOR_SENSOR)))
      [toSize (env.camera.height .COLOR_SENSOR), toSize (env.camera.width .COLOR_SENSOR), 3]
      3 .H5T_NATIVE_UCHAR inp.colorWriteFailed) s
  let s : State := { s with count := wrapInt32 (s.count + 1) }
  if s.g_display = .DEPTH_SENSOR then
    -- Colorize Depth
    let s : State := emit (.colorizeRun (env.camera.width .DEPTH_SENSOR)
      (env.camera.height .DEPTH_SENSOR) kMinDepth kMaxDepth s.depthData) s
    let colorized := env.colorize (env.camera.width .DEPTH_SENSOR)
      (env.camera.height .DEPTH_SENSOR) kMinDepth kMaxDepth s.depthData
    let s : State := { s with colorizedData := colorized }
    -- Update Texture
    emit (.texSubImage (env.camera.width .DEPTH_SENSOR)
      (env.camera.height .DEPTH_SENSOR) s.colorizedData) s
  else
    -- Update Texture
    emit (.texSubImage (env.camera.width .COLOR_SENSOR)
      (env.camera.height .COLOR_SENSOR) s.colorData) s

/-- The function `keyboard(key, x, y)`; `key` is an `unsigned char`. -/
def keyboard (key : Nat) (s : State) : State :=
  if key = 27 then close s
  else if key = 49 then { s with g_display := .DEPTH_SENSOR }
  else if key = 50 then { s with g_display := .COLOR_SENSOR }
  else s

/-- The text of the usage message; `argv[0]` of an empty argument vector is
printed the way the C library prints a null string. -/
def usage (argv : List String) : String :=
  "Usage: " ++ argv.headD "(null)" ++ " <Dump File> <Compression Level>\n"

/-- Whether `new T[width * height]` throws: the element count is the `int`
product; a negative count is rejected, any other request succeeds or fails as
the allocator decides. -/
def newArrayFails (env : Env) (site : Alloc) (width height : Int) : Bool :=
  wrapInt32 (width * height) < 0 || env.allocFails site

/-- End of the process by an exception nobody catches (`std::terminate`, then
`abort`), recorded with the status 134 that a shell reports for `SIGABRT`. -/
def abort (s : State) : State := { s with exited := some 134 }

/-- The function `main` up to the call of `glutMainLoop()`.  A `return -1`
ends the process with that status; `exited = none` afterwards means that the
main loop is entered.  After `glutInit` the program reads `argv[1]` and
`argv[2]` from the array as that call left it; `atoi` of a null pointer is
undefined and is recorded as the end of the process with the status 139 of
`SIGSEGV`.  A `new` that throws ends the process through `abort`. -/
def main (env : Env) (argv : List String) : State :=
  let s := State.start
  if argv.length ≠ 3 then
    { emit (.printf (usage argv)) s with exited := some (-1) }
  else
  let s : State := emit (.glutInit argv) s
  match env.glutInit argv with
  | .exits status => { s with exited := some status }
  | .returns argv =>
  -- Initialize camera.
  if env.allocFails .camera then abort s
  else
  let s : State := { emit .newCamera s with g_camera := .live }
  if !env.camera.enabled then
    { emit (.printf "Unable to Open Camera\n") s with exited := some (-1) }
  else
  -- Initialize dump file.
  if env.allocFails .dump then abort s
  else
  let s : State := { emit (.newWrapper (argv.getD 1 none)) s with g_dump := .live }
  match argv.getD 2 none with
  | none => { s with exited := some 139 }
  | some level =>
  let s : State := emit (.compression (atoi level)) s
  -- Initialize dumper.
  if env.allocFails .dumper then abort s
  else
  let s : State := { emit .newDumper s with g_dumper := .live }
  if !env.dumpEnabled then
    { emit (.printf "Unable to Create Dump File\n") s with exited := some (-1) }
  else
  -- Output dimensions of depth and color images.
  let width := env.camera.width .DEPTH_SENSOR
  let height := env.camera.height .DEPTH_SENSOR
  let s := emit (.writeScalar "WIDTH" "/INFORMATION/DEPTH_SENSOR" (.int width) .H5T_NATIVE_INT) s
  let s := emit (.writeScalar "HEIGHT" "/INFORMATION/DEPTH_SENSOR" (.int height) .H5T_NATIVE_INT) s
  let width := env.camera.width .COLOR_SENSOR
  let height := env.camera.height .COLOR_SENSOR
  let s := emit (.writeScalar "WIDTH" "/INFORMATION/COLOR_SENSOR" (.int width) .H5T_NATIVE_INT) s
  let s := emit (.writeScalar "HEIGHT" "/INFORMATION/COLOR_SENSOR" (.int height) .H5T_NATIVE_INT) s
  -- Output focal length of depth and color images.
  let fx := env.camera.fx .DEPTH_SENSOR
  let fy := env.camera.fy .DEPTH_SENSOR
  let s := emit (.writeScalar "FX" "/INFORMATION/DEPTH_SENSOR" (.float fx) .H5T_NATIVE_FLOAT) s
  let s := emit (.writeScalar "FY" "/INFORMATION/DEPTH_SENSOR" (.float fy) .H5T_NATIVE_FLOAT) s
  let fx := env.camera.fx .COLOR_SENSOR
  let fy := env.camera.fy .COLOR_SENSOR
  let s := emit (.writeScalar "FX" "/INFORMATION/COLOR_SENSOR" (.float fx) .H5T_NATIVE_FLOAT) s
  let s := emit (.writeScalar "FY" "/INFORMATION/COLOR_SENSOR" (.float fy) .H5T_NATIVE_FLOAT) s
  -- Initialize Buffers
  if newArrayFails env .depth (env.camera.width .DEPTH_SENSOR)
      (env.camera.height .DEPTH_SENSOR) then abort s
  else
  let s : State := { s with g_depth := .live }
  if newArrayFails env .colorizedDepth (env.camera.width .DEPTH_SENSOR)
      (env.camera.height .DEPTH_SENSOR) then abort s
  else
  let s : State := { s with g_colorized_depth := .live }
  if newArrayFails env .color (env.camera.width .COLOR_SENSOR)
      (env.camera.height .COLOR_SENSOR) then abort s
  else
  { s with g_color := .live }

/-! ## The main loop -/

/-- What GLUT delivers to the program: a redisplay (one tick, with what the
outside world answers during it) or a key press. -/
inductive LoopEvent
  | tick (inp : TickInput)
  | key (code : Nat)
  deriving DecidableEq, Repr

/-- One callback of the main loop; nothing runs once the process has ended. -/
def step (env : Env) (s : State) (ev : LoopEvent) : State :=
  if s.exited.isSome then s
  else
    match ev with
    | .tick inp => display env inp s
    | .key code => keyboard code s

/-- A whole run: `main`, then the callbacks in the order GLUT delivers them. -/
def run (env : Env) (argv : List String) (evs : List LoopEvent) : State :=
  evs.foldl (step env) (main env argv)

/-! ## Observations on group names -/

/-- Numeric value of a list of decimal digit characters, most significant
first. -/
def digitsValue (cs : List Char) : Nat :=
  Nat.ofDigits 10 ((cs.map fun c => c.toNat - 48).reverse)

/-- A character is one of the decimal digits `0` .. `9`. -/
def IsDecimalDigit (c : Char) : Prop := 48 ≤ c.toNat ∧ c.toNat ≤ 57

/-! ## Observations on traces and runs -/

/-- Recognises a dataset write of the dumper. -/
def Event.isWrite : Event → Bool
  | .write .. => true
  | _ => false

/-- Recognises a scalar write of the dump wrapper. -/
def Event.isScalar : Event → Bool
  | .writeScalar .. => true
  | _ => false

/-- Recognises a camera `Update` call. -/
def Event.isUpdate : Event → Bool
  | .update _ => true
  | _ => false

/-- The group a dataset write is addressed to. -/
def Event.group? : Event → Option String
  | .write _ g .. => some g
  | _ => none

/-- The dataset writes of a trace, in order. -/
def frameWrites (t : List Event) : List Event := t.filter Event.isWrite

/-- The scalar writes of a trace, in order. -/
def scalarWrites (t : List Event) : List Event := t.filter Event.isScalar

/-- The camera `Update` calls of a trace, in order. -/
def updateCalls (t : List Event) : List Event := t.filter Event.isUpdate

/-- The values stored by the scalar writes of a trace under a given name and
group, in order. -/
def scalarValues (t : List Event) (name group : String) : List Scalar :=
  t.filterMap fun e =>
    match e with
    | .writeScalar n g v _ => if n = name ∧ g = group then some v else none
    | _ => none

/-- The six global pointers, in the order `close()` treats them. -/
def State.pointers (s : State) : List Ptr :=
  [s.g_camera, s.g_dumper, s.g_dump, s.g_depth, s.g_colorized_depth, s.g_color]

/-- The tick inputs of a list of loop events, in order. -/
def ticksOf : List LoopEvent → List TickInput
  | [] => []
  | .tick inp :: evs => inp :: ticksOf evs
  | .key _ :: evs => ticksOf evs

/-- Both `Update` calls of the tick report success. -/
def TickInput.acquired (inp : TickInput) : Bool := !inp.depth.failed && !inp.color.failed

/-- A loop event that does not end the run: a tick whose two acquisitions
succeed, or a key other than escape. -/
def LoopEvent.continues : LoopEvent → Bool
  | .tick inp => inp.acquired
  | .key code => code != 27

/-- A tick, or a press of one of the two view-mode keys `1` and `2`. -/
def LoopEvent.isTickOrViewKey : LoopEvent → Bool
  | .tick _ => true
  | .key code => code == 49 || code == 50

/-- The value of the frame counter after each tick of a stretch of the main
loop, in order. -/
def countsAfterTicks (env : Env) : State → List LoopEvent → List Int
  | _, [] => []
  | s, .tick inp :: evs =>
    (step env s (.tick inp)).count :: countsAfterTicks env (step env s (.tick inp)) evs
  | s, .key code :: evs => countsAfterTicks env (step env s (.key code)) evs

/-- Two states agree on capture and persistence: same process status, same
frame counter, same `Update` calls and same dataset writes so far. -/
def SameCapture (s t : State) : Prop :=
  s.exited = t.exited ∧ s.count = t.count ∧
  updateCalls s.trace = updateCalls t.trace ∧ frameWrites s.trace = frameWrites t.trace

/-! ## What the program is expected to issue -/

/-- The `DEPTH` dataset write of a frame with index `i`. -/
def depthWrite (env : Env) (i : Int) (inp : TickInput) : Event :=
  .write "DEPTH" (groupName i) inp.depth.frame
    (sizeMul (sizeMul sizeofDepth (toSize (env.camera.width .DEPTH_SENSOR)))
      (toSize (env.camera.height .DEPTH_SENSOR)))
    [toSize (env.camera.height .DEPTH_SENSOR), toSize (env.camera.width .DEPTH_SENSOR)]
    2 .H5T_NATIVE_SHORT inp.depthWriteFailed

/-- The `COLOR` dataset write of a frame with index `i`. -/
def colorWrite (env : Env) (i : Int) (inp : TickInput) : Event :=
  .write "COLOR" (groupName i) inp.color.frame
    (sizeMul (sizeMul sizeofColor (toSize (env.camera.width .COLOR_SENSOR)))
      (toSize (env.camera.height .COLOR_SENSOR)))
    [toSize (env.camera.height .COLOR_SENSOR), toSize (env.camera.width .COLOR_SENSOR), 3]
    3 .H5T_NATIVE_UCHAR inp.colorWriteFailed

/-- The frame groups `i`, `i + 1`, ... : one `DEPTH` and one `COLOR` write per
tick input, in order. -/
def frameGroups (env : Env) : Int → List TickInput → List Event
  | _, [] => []
  | i, inp :: rest => depthWrite env i inp :: colorWrite env i inp :: frameGroups env (i + 1) rest

/-- The calls one tick appends to the trace, from the view mode, the value of
the frame counter and what the outside world answers. -/
def tickEvents (env : Env) (view : Sensor) (count : Int) (inp : TickInput) : List Event :=
  if inp.depth.failed then
    [.update .DEPTH_SENSOR, .printf "Unable to update depth image.\n"]
  else if inp.color.failed then
    [.update .DEPTH_SENSOR, .update .COLOR_SENSOR, .printf "Unable to update color image.\n"]
  else
    [.update .DEPTH_SENSOR, .update .COLOR_SENSOR,
      depthWrite env count inp, colorWrite env count inp] ++
    if view = .DEPTH_SENSOR then
      [.colorizeRun (env.camera.width .DEPTH_SENSOR) (env.camera.height .DEPTH_SENSOR)
          kMinDepth kMaxDepth inp.depth.frame,
        .texSubImage (env.camera.width .DEPTH_SENSOR) (env.camera.height .DEPTH_SENSOR)
          (env.colorize (env.camera.width .DEPTH_SENSOR) (env.camera.height .DEPTH_SENSOR)
            kMinDepth kMaxDepth inp.depth.frame)]
    else
      [.texSubImage (env.camera.width .COLOR_SENSOR) (env.camera.height .COLOR_SENSOR)
        inp.color.frame]

/-- The events `main` issues on the way into the main loop: `argv` are the
arguments of the program, `file` and `level` what `argv[1]` and `argv[2]` hold
after `glutInit`. -/
def startupTrace (env : Env) (argv : List String) (file : Option String) (level : String) :
    List Event :=
  [ .glutInit argv,
    .newCamera,
    .newWrapper file,
    .compression (atoi level),
    .newDumper,
    .writeScalar "WIDTH" "/INFORMATION/DEPTH_SENSOR"
      (.int (env.camera.width .DEPTH_SENSOR)) .H5T_NATIVE_INT,
    .writeScalar "HEIGHT" "/INFORMATION/DEPTH_SENSOR"
      (.int (env.camera.height .DEPTH_SENSOR)) .H5T_NATIVE_INT,
    .writeScalar "WIDTH" "/INFORMATION/COLOR_SENSOR"
      (.int (env.camera.width .COLOR_SENSOR)) .H5T_NATIVE_INT,
    .writeScalar "HEIGHT" "/INFORMATION/COLOR_SENSOR"
      (.int (env.camera.height .COLOR_SENSOR)) .H5T_NATIVE_INT,
    .writeScalar "FX" "/INFORMATION/DEPTH_SENSOR"
      (.float (env.camera.fx .DEPTH_SENSOR)) .H5T_NATIVE_FLOAT,
    .writeScalar "FY" "/INFORMATION/DEPTH_SENSOR"
      (.float (env.camera.fy .DEPTH_SENSOR)) .H5T_NATIVE_FLOAT,
    .writeScalar "FX" "/INFORMATION/COLOR_SENSOR"
      (.float (env.camera.fx .COLOR_SENSOR)) .H5T_NATIVE_FLOAT,
    .writeScalar "FY" "/INFORMATION/COLOR_SENSOR"
      (.float (env.camera.fy .COLOR_SENSOR)) .H5T_NATIVE_FLOAT ]

/-- Follows the spec's words for the second positional argument: a non-negative
integer, that is a non-empty string of decimal digits. -/
def isNonNegativeInteger (s : String) : Bool :=
  !s.toList.isEmpty && s.toList.all fun c => 48 ≤ c.toNat && c.toNat ≤ 57

/-! ## Sample inputs -/

/-- A camera with a 2 x 2 depth stream and a 1 x 1 color stream. -/
def sampleCamera : Camera :=
  { enabled := true
    width := fun s => match s with
      | .DEPTH_SENSOR => 2
      | .COLOR_SENSOR => 1
    height := fun s => match s with
      | .DEPTH_SENSOR => 2
      | .COLOR_SENSOR => 1
    fx := fun _ => 1141112832
    fy := fun _ => 1141112832 }

/-- A run environment in which the dump file can be created. -/
def sampleEnv : Env :=
  { camera := sampleCamera
    glutInit := fun argv => .returns (argv.map some)
    dumpEnabled := true
    allocFails := fun _ => false
    colorize := fun _ _ _ _ d => d }

/-- An environment whose camera reports 0 x 0 for both streams. -/
def emptyFrameEnv : Env :=
  { sampleEnv with camera :=
      { sampleCamera with width := fun _ => 0, height := fun _ => 0 } }

/-- An environment whose camera reports -1 x -1 for both streams. -/
def negativeFrameEnv : Env :=
  { sampleEnv with camera :=
      { sampleCamera with width := fun _ => -1, height := fun _ => -1 } }

/-- A tick of the 0 x 0 camera: both acquisitions succeed, the frames hold no
sample. -/
def emptyTick : TickInput :=
  { depth := { failed := false, frame := [] }
    color := { failed := false, frame := [] }
    depthWriteFailed := false
    colorWriteFailed := false }

/-- A well-formed argument vector. -/
def sampleArgv : List String := ["camera_capture", "capture.h5", "5"]

/-- A tick in which both acquisitions and both writes succeed. -/
def goodTick : TickInput :=
  { depth := { failed := false, frame := [0, 100, 8192, 9000] }
    color := { failed := false, frame := [1, 2, 3] }
    depthWriteFailed := false
    colorWriteFailed := false }

/-- A tick in which the depth acquisition fails. -/
def depthFailTick : TickInput :=
  { depth := { failed := true, frame := [] }
    color := { failed := false, frame := [1, 2, 3] }
    depthWriteFailed := false
    colorWriteFailed := false }

/-- A tick in which both acquisitions succeed and the `DEPTH` write fails. -/
def writeFailTick : TickInput :=
  { depth := { failed := false, frame := [7, 7, 7, 7] }
    color := { failed := false, frame := [1, 2, 3] }
    depthWriteFailed := true
    colorWriteFailed := false }

/-- An environment whose camera reports that it is not enabled. -/
def cameraOffEnv : Env :=
  { sampleEnv with camera := { sampleCamera with enabled := false } }

/-- An environment in which the dump file cannot be created. -/
def dumpOffEnv : Env := { sampleEnv with dumpEnabled := false }

/-! ## Facts about the formatting of the group name -/

theorem digitsFuel_eq_digits (fuel n : Nat) (h : n ≤ fuel) :
    digitsFuel fuel n = Nat.digits 10 n := by
  induction fuel generalizing n with
  | zero =>
    have : n = 0 := by omega
    subst this
    simp [digitsFuel]
  | succ fuel ih =>
    unfold digitsFuel
    by_cases hn : n = 0
    · subst hn; simp
    · have hpos : 0 < n := Nat.pos_of_ne_zero hn
      rw [if_neg hn, Nat.digits_def' (by norm_num) hpos, ih (n / 10) (by omega)]

theorem digitChar_val (d : Nat) (h : d < 10) : (digitChar d).toNat - 48 = d := by
  interval_cases d <;> rfl

theorem digitChar_toNat (d : Nat) (h : d < 10) : (digitChar d).toNat = 48 + d := by
  interval_cases d <;> rfl

theorem digitChar_ascii (d : Nat) (h : d < 10) : (digitChar d).toNat < 128 := by
  interval_cases d <;> decide

theorem map_digitChar_val (l : List Nat) (h : ∀ d ∈ l, d < 10) :
    (l.map digitChar).map (fun c => c.toNat - 48) = l := by
  induction l with
  | nil => rfl
  | cons d l ih =>
    simp only [List.map_cons, List.cons.injEq]
    exact ⟨digitChar_val d (h d (by simp)), ih fun x hx => h x (by simp [hx])⟩

/-- The zero-padded decimal rendering, as padding followed by the digits of
Mathlib's `Nat.digits`. -/
theorem zeroPad_decimal (w n : Nat) (hw : 1 ≤ w) :
    zeroPad w (decimal n) =
      List.replicate (w - (Nat.digits 10 n).length) (Char.ofNat 48) ++
        (Nat.digits 10 n).reverse.map digitChar := by
  unfold zeroPad decimal
  by_cases hn : n = 0
  · subst hn
    obtain ⟨k, rfl⟩ : ∃ k, w = k + 1 := ⟨w - 1, by omega⟩
    simp [List.replicate_succ']
  · rw [if_neg hn, digitsFuel_eq_digits n n le_rfl]
    simp

theorem zeroPad_decimal_length (w n : Nat) (hw : 1 ≤ w) :
    (zeroPad w (decimal n)).length = max w (Nat.digits 10 n).length := by
  rw [zeroPad_decimal w n hw]
  simp
  omega

theorem zeroPad_decimal_digits (w n : Nat) (hw : 1 ≤ w) :
    ∀ c ∈ zeroPad w (decimal n), IsDecimalDigit c := by
  rw [zeroPad_decimal w n hw]
  intro c hc
  rw [List.mem_append] at hc
  rcases hc with hc | hc
  · rw [(List.mem_replicate.mp hc).2]
    exact ⟨by decide, by decide⟩
  · obtain ⟨d, hd, rfl⟩ := List.mem_map.mp hc
    have hlt : d < 10 := Nat.digits_lt_base (by norm_num) (List.mem_reverse.mp hd)
    unfold IsDecimalDigit
    rw [digitChar_toNat d hlt]
    omega

theorem digitsValue_zeroPad_decimal (w n : Nat) (hw : 1 ≤ w) :
    digitsValue (zeroPad w (decimal n)) = n := by
  rw [zeroPad_decimal w n hw]
  unfold digitsValue
  have h48 : (Char.ofNat 48).toNat - 48 = 0 := by decide
  rw [List.map_append, List.map_replicate, h48, List.reverse_append, ← List.map_reverse,
    ← List.map_reverse, List.reverse_reverse,
    map_digitChar_val _ (fun d hd => Nat.digits_lt_base (by norm_num) hd),
    List.reverse_replicate, Nat.ofDigits_append, Nat.ofDigits_digits]
  have : Nat.ofDigits 10 (List.replicate (w - (Nat.digits 10 n).length) 0) = 0 := by
    induction (w - (Nat.digits 10 n).length) with
    | zero => rfl
    | succ k ih => simp [List.replicate_succ, Nat.ofDigits_cons, ih]
  rw [this]; simp

theorem fmt04d_nonneg (v : Int) (h : 0 ≤ v) : fmt04d v = zeroPad 4 (decimal v.toNat) := by
  unfold fmt04d
  rw [if_neg (by omega)]

/-- Distinct non-negative counter values give distinct group names. -/
theorem groupName_injective (i j : Int) (hi : 0 ≤ i) (hj : 0 ≤ j)
    (h : groupName i = groupName j) : i = j := by
  unfold groupName at h
  rw [fmt04d_nonneg i hi, fmt04d_nonneg j hj] at h
  have h2 := List.append_cancel_left (congrArg String.data h)
  have h3 := congrArg digitsValue h2
  rw [digitsValue_zeroPad_decimal 4 _ (by norm_num),
    digitsValue_zeroPad_decimal 4 _ (by norm_num)] at h3
  omega

theorem digits_length_le (n k : Nat) (h : n < 10 ^ k) : (Nat.digits 10 n).length ≤ k := by
  by_cases hn : n = 0
  · subst hn; simp
  · have h1 := Nat.base_pow_length_digits_le 10 n (by norm_num) hn
    have h2 : 10 ^ (Nat.digits 10 n).length < 10 ^ (k + 1) := by
      rw [pow_succ]
      omega
    exact Nat.le_of_lt_succ ((Nat.pow_lt_pow_iff_right (by norm_num)).mp h2)

theorem digits_length_gt (n k : Nat) (h : 10 ^ k ≤ n) : k < (Nat.digits 10 n).length := by
  have h1 := Nat.lt_base_pow_length_digits (b := 10) (m := n) (by norm_num)
  exact (Nat.pow_lt_pow_iff_right (by norm_num)).mp (lt_of_le_of_lt h h1)

theorem groupName_length (i : Int) (hi : 0 ≤ i) :
    (groupName i).length = 6 + max 4 (Nat.digits 10 i.toNat).length := by
  unfold groupName
  rw [fmt04d_nonneg i hi, String.length, List.length_append,
    zeroPad_decimal_length 4 _ (by norm_num)]
  rfl

theorem digitsValue_cons (c : Char) (t : List Char) :
    digitsValue (c :: t) = (c.toNat - 48) * 10 ^ t.length + digitsValue t := by
  unfold digitsValue
  rw [List.map_cons, List.reverse_cons, Nat.ofDigits_append]
  simp [Nat.ofDigits_singleton]
  ring

theorem digitsValue_lt (t : List Char) (h : ∀ c ∈ t, IsDecimalDigit c) :
    digitsValue t < 10 ^ t.length := by
  unfold digitsValue
  have := Nat.ofDigits_lt_base_pow_length (b := 10)
    (l := (t.map fun c => c.toNat - 48).reverse) (by norm_num) (by
      intro x hx
      obtain ⟨c, hc, rfl⟩ := List.mem_map.mp (List.mem_reverse.mp hx)
      have := h c hc
      unfold IsDecimalDigit at this
      omega)
  simpa using this

/-- Digit strings of the same length are ordered lexicographically the way
their values are ordered. -/
theorem digits_lex_of_value_lt (a b : List Char) (hlen : a.length = b.length)
    (ha : ∀ c ∈ a, IsDecimalDigit c) (hb : ∀ c ∈ b, IsDecimalDigit c)
    (hv : digitsValue a < digitsValue b) : a < b := by
  induction a generalizing b with
  | nil =>
    cases b with
    | nil => simp at hv
    | cons y b => simp at hlen
  | cons x a ih =>
    cases b with
    | nil => simp at hlen
    | cons y b =>
      have hl : a.length = b.length := by simpa using hlen
      have hx := ha x (by simp)
      have hy := hb y (by simp)
      have hta : ∀ c ∈ a, IsDecimalDigit c := fun c hc => ha c (by simp [hc])
      have htb : ∀ c ∈ b, IsDecimalDigit c := fun c hc => hb c (by simp [hc])
      have va := digitsValue_lt a hta
      have vb := digitsValue_lt b htb
      rw [digitsValue_cons, digitsValue_cons, hl] at hv
      rw [hl] at va
      unfold IsDecimalDigit at hx hy
      rcases Nat.lt_trichotomy x.toNat y.toNat with hlt | heq | hgt
      · exact List.Lex.rel hlt
      · have hxy : x = y := Char.ext (UInt32.ext heq)
        subst hxy
        exact List.Lex.cons (ih b hl hta htb (by omega))
      · exfalso
        have h1 : (y.toNat - 48) + 1 ≤ x.toNat - 48 := by omega
        have h2 := Nat.mul_le_mul_right (10 ^ b.length) h1
        rw [Nat.add_mul] at h2
        omega

theorem lex_append_left (p a b : List Char) (h : a < b) : p ++ a < p ++ b :=
  List.Lex.append_left _ h p

/-- Below 10000 the group names are ordered the way the indices are. -/
theorem groupName_lt (n m : Int) (hn : 0 ≤ n) (hnm : n < m) (hm : m < 10000) :
    groupName n < groupName m := by
  rw [String.lt_iff_toList_lt]
  unfold groupName
  rw [fmt04d_nonneg n hn, fmt04d_nonneg m (by omega)]
  apply lex_append_left
  apply digits_lex_of_value_lt
  · rw [zeroPad_decimal_length 4 _ (by norm_num), zeroPad_decimal_length 4 _ (by norm_num)]
    have l1 := digits_length_le n.toNat 4 (by omega)
    have l2 := digits_length_le m.toNat 4 (by omega)
    omega
  · exact zeroPad_decimal_digits 4 _ (by norm_num)
  · exact zeroPad_decimal_digits 4 _ (by norm_num)
  · rw [digitsValue_zeroPad_decimal 4 _ (by norm_num),
      digitsValue_zeroPad_decimal 4 _ (by norm_num)]
    omega

theorem utf8ByteSize_ascii (l : List Char) (h : ∀ c ∈ l, c.toNat < 128) :
    String.utf8ByteSize.go l = l.length := by
  induction l with
  | nil => rfl
  | cons c l ih =>
    have hc : c.utf8Size = 1 := by
      unfold Char.utf8Size
      have : c.val ≤ UInt32.ofNatCore 127 (by decide) := by
        show c.val.toNat ≤ 127
        have := h c (by simp)
        unfold Char.toNat at this
        omega
      simp only [this, if_true]
    rw [String.utf8ByteSize.go, ih fun x hx => h x (by simp [hx]), hc, List.length_cons]

/-- The group name of a non-negative counter value consists of one-byte
characters. -/
theorem groupName_utf8ByteSize (i : Int) (hi : 0 ≤ i) :
    (groupName i).utf8ByteSize = (groupName i).length := by
  unfold groupName
  rw [fmt04d_nonneg i hi]
  show String.utf8ByteSize.go _ = _
  apply utf8ByteSize_ascii
  intro c hc
  rw [List.mem_append] at hc
  rcases hc with hc | hc
  · revert c
    decide
  · have := zeroPad_decimal_digits 4 i.toNat (by norm_num) c hc
    unfold IsDecimalDigit at this
    omega

/-! ## Facts about machine integers -/

theorem wrapInt32_id (v : Int) (h1 : -2 ^ 31 ≤ v) (h2 : v < 2 ^ 31) : wrapInt32 v = v := by
  unfold wrapInt32
  rw [Int.emod_eq_of_lt (by omega) (by omega)]
  omega

theorem toSize_of_nonneg (v : Int) (h0 : 0 ≤ v) (h1 : v < 2 ^ 31) : toSize v = v.toNat := by
  unfold toSize
  rw [Int.emod_eq_of_lt h0 (by omega)]

/-- The `size_t` product `k * width * height` does not wrap for `k ≤ 3` and
dimensions in the non-negative range of `int`. -/
theorem sizeMul_dims (k : Nat) (w h : Int) (hk : k ≤ 3)
    (hw0 : 0 ≤ w) (hw1 : w < 2 ^ 31) (hh0 : 0 ≤ h) (hh1 : h < 2 ^ 31) :
    sizeMul (sizeMul k (toSize w)) (toSize h) = h.toNat * w.toNat * k := by
  rw [toSize_of_nonneg w hw0 hw1, toSize_of_nonneg h hh0 hh1]
  have hW : w.toNat < 2 ^ 31 := by omega
  have hH : h.toNat < 2 ^ 31 := by omega
  generalize w.toNat = W at *
  generalize h.toNat = H at *
  have h1 : k * W ≤ 3 * W := Nat.mul_le_mul_right W hk
  have h2 : k * W * H ≤ 3 * 2 ^ 31 * H := Nat.mul_le_mul_right H (by omega)
  have e1 : k * W % 2 ^ 64 = k * W := Nat.mod_eq_of_lt (by omega)
  have e2 : k * W * H % 2 ^ 64 = k * W * H := Nat.mod_eq_of_lt (by omega)
  unfold sizeMul
  rw [e1, e2]
  ring

theorem toNat_mul_pos_iff (h w : Int) (hh : 0 ≤ h) (hw : 0 ≤ w) :
    0 < h.toNat * w.toNat ↔ 0 < h ∧ 0 < w := by
  rw [Nat.pos_iff_ne_zero, Nat.mul_ne_zero_iff]
  omega

/-! ## Facts about the usage message -/

theorem usage_data (argv : List String) :
    ∃ rest, (usage argv).data = Char.ofNat 85 :: Char.ofNat 115 :: rest := by
  unfold usage
  rw [String.data_append, String.data_append]
  exact ⟨"age: ".data ++ (argv.headD "(null)").data ++
    " <Dump File> <Compression Level>\n".data, rfl⟩

/-- The usage message differs from every text that starts with `Un`, such as
the two start-up diagnostics. -/
theorem usage_ne_unable (argv : List String) (rest : List Char) :
    usage argv ≠ String.mk (Char.ofNat 85 :: Char.ofNat 110 :: rest) := by
  intro h
  obtain ⟨r, hr⟩ := usage_data argv
  have := congrArg String.data h
  rw [hr] at this
  simp at this

/-! ## One callback, and stretches of the main loop -/

section steps

variable (env : Env)

theorem display_acquired (inp : TickInput) (s : State) (h : inp.acquired = true) :
    (display env inp s).exited = s.exited ∧
    (display env inp s).count = wrapInt32 (s.count + 1) ∧
    (display env inp s).pointers = s.pointers ∧
    frameWrites (display env inp s).trace =
      frameWrites s.trace ++ [depthWrite env s.count inp, colorWrite env s.count inp] ∧
    scalarWrites (display env inp s).trace = scalarWrites s.trace ∧
    updateCalls (display env inp s).trace =
      updateCalls s.trace ++ [.update .DEPTH_SENSOR, .update .COLOR_SENSOR] := by
  simp only [TickInput.acquired, Bool.and_eq_true, Bool.not_eq_true'] at h
  obtain ⟨hd, hc⟩ := h
  unfold display
  simp only [hd, hc, emit, Bool.false_eq_true, if_false]
  split <;>
    simp [State.pointers, frameWrites, scalarWrites, updateCalls, Event.isWrite,
      Event.isScalar, Event.isUpdate, depthWrite, colorWrite, List.filter_append, List.filter]

theorem display_update_failed (inp : TickInput) (s : State) (h : inp.acquired = false) :
    (display env inp s).exited = some 0 ∧
    (display env inp s).count = s.count ∧
    (display env inp s).pointers = s.pointers.map Ptr.release ∧
    frameWrites (display env inp s).trace = frameWrites s.trace ∧
    scalarWrites (display env inp s).trace = scalarWrites s.trace := by
  unfold display
  by_cases hd : inp.depth.failed = true
  · simp [hd, emit, close, State.pointers, frameWrites, scalarWrites, Event.isWrite,
      Event.isScalar, List.filter_append, List.filter]
  · have hd2 : inp.depth.failed = false := by simpa using hd
    have hc : inp.color.failed = true := by
      simp only [TickInput.acquired, hd2] at h
      simpa using h
    simp [hd2, hc, emit, close, State.pointers, frameWrites, scalarWrites, Event.isWrite,
      Event.isScalar, List.filter_append, List.filter]

theorem display_exited_count (inp : TickInput) (s : State) :
    (display env inp s).exited = (if inp.acquired then s.exited else some 0) ∧
    (display env inp s).count = (if inp.acquired then wrapInt32 (s.count + 1) else s.count) := by
  cases h : inp.acquired
  · obtain ⟨h1, h2, -⟩ := display_update_failed env inp s h
    simp [h1, h2]
  · obtain ⟨h1, h2, -⟩ := display_acquired env inp s h
    simp [h1, h2]

theorem display_trace (inp : TickInput) (s : State) :
    (display env inp s).trace = s.trace ++ tickEvents env s.g_display s.count inp := by
  unfold display tickEvents
  cases hd : inp.depth.failed <;> cases hc : inp.color.failed <;>
    by_cases hv : s.g_display = .DEPTH_SENSOR <;>
    simp [emit, close, hv, depthWrite, colorWrite]

theorem scalarWrites_tickEvents (view : Sensor) (count : Int) (inp : TickInput) :
    scalarWrites (tickEvents env view count inp) = [] := by
  unfold tickEvents
  cases hd : inp.depth.failed <;> cases hc : inp.color.failed <;> cases view <;>
    simp [scalarWrites, Event.isScalar, depthWrite, colorWrite, List.filter]

theorem tickEvents_capture (v w : Sensor) (count : Int) (inp : TickInput) :
    updateCalls (tickEvents env v count inp) = updateCalls (tickEvents env w count inp) ∧
    frameWrites (tickEvents env v count inp) = frameWrites (tickEvents env w count inp) := by
  unfold tickEvents
  cases hd : inp.depth.failed <;> cases hc : inp.color.failed <;> cases v <;> cases w <;>
    simp [updateCalls, frameWrites, Event.isUpdate, Event.isWrite, depthWrite, colorWrite,
      List.filter]

theorem keyboard_continues (code : Nat) (s : State) (h : code ≠ 27) :
    (keyboard code s).exited = s.exited ∧
    (keyboard code s).count = s.count ∧
    (keyboard code s).pointers = s.pointers ∧
    (keyboard code s).trace = s.trace := by
  unfold keyboard
  rw [if_neg h]
  split
  · simp [State.pointers]
  · split <;> simp [State.pointers]

theorem keyboard_trace (code : Nat) (s : State) : (keyboard code s).trace = s.trace := by
  unfold keyboard close
  split
  · rfl
  · split
    · rfl
    · split <;> rfl

theorem step_exited (s : State) (ev : LoopEvent) (h : s.exited.isSome = true) :
    step env s ev = s := by
  unfold step
  rw [if_pos h]

theorem foldl_step_exited (evs : List LoopEvent) (s : State) (h : s.exited.isSome = true) :
    evs.foldl (step env) s = s := by
  induction evs with
  | nil => rfl
  | cons ev evs ih => rw [List.foldl_cons, step_exited env s ev h, ih]

/-- A callback of the main loop only appends to the trace, and never a scalar
write. -/
theorem step_trace (s : State) (ev : LoopEvent) :
    ∃ later, (step env s ev).trace = s.trace ++ later ∧ scalarWrites later = [] := by
  unfold step
  split
  · exact ⟨[], by simp, rfl⟩
  · cases ev with
    | tick inp =>
      exact ⟨tickEvents env s.g_display s.count inp, display_trace env inp s,
        scalarWrites_tickEvents env _ _ _⟩
    | key code => exact ⟨[], by simp [keyboard_trace], rfl⟩

theorem foldl_step_trace (evs : List LoopEvent) (s : State) :
    ∃ later, (evs.foldl (step env) s).trace = s.trace ++ later ∧ scalarWrites later = [] := by
  induction evs generalizing s with
  | nil => exact ⟨[], by simp, rfl⟩
  | cons ev evs ih =>
    obtain ⟨l1, h1, k1⟩ := step_trace env s ev
    obtain ⟨l2, h2, k2⟩ := ih (step env s ev)
    refine ⟨l1 ++ l2, ?_, ?_⟩
    · rw [List.foldl_cons, h2, h1, List.append_assoc]
    · unfold scalarWrites at *
      rw [List.filter_append, k1, k2]
      rfl

theorem frameGroups_append (i : Int) (a b : List TickInput) :
    frameGroups env i (a ++ b) = frameGroups env i a ++ frameGroups env (i + a.length) b := by
  induction a generalizing i with
  | nil => simp [frameGroups]
  | cons x a ih =>
    have e : i + 1 + (a.length : Int) = i + ((a.length : Int) + 1) := by ring
    simp only [List.cons_append, frameGroups, List.length_cons, Nat.cast_add, Nat.cast_one,
      List.cons.injEq, true_and]
    exact (ih (i + 1)).trans (by rw [e])

theorem frameGroups_length (i : Int) (a : List TickInput) :
    (frameGroups env i a).length = 2 * a.length := by
  induction a generalizing i with
  | nil => rfl
  | cons x a ih => simp only [frameGroups, List.length_cons, ih]; ring

theorem frameGroups_getElem? (j : Int) (l : List TickInput) (i : Nat) (inp : TickInput)
    (h : l[i]? = some inp) :
    (frameGroups env j l)[2 * i]? = some (depthWrite env (j + i) inp) ∧
    (frameGroups env j l)[2 * i + 1]? = some (colorWrite env (j + i) inp) := by
  induction l generalizing j i with
  | nil => simp at h
  | cons x l ih =>
    cases i with
    | zero =>
      simp only [List.getElem?_cons_zero, Option.some.injEq] at h
      subst h
      simp [frameGroups]
    | succ i =>
      simp only [List.getElem?_cons_succ] at h
      obtain ⟨h1, h2⟩ := ih (j + 1) i h
      have e : j + 1 + (i : Int) = j + ((i + 1 : Nat) : Int) := by push_cast; ring
      rw [e] at h1 h2
      constructor
      · rw [show 2 * (i + 1) = (2 * i + 1) + 1 by ring]
        simpa [frameGroups] using h1
      · rw [show 2 * (i + 1) + 1 = (2 * i + 1 + 1) + 1 by ring]
        simpa [frameGroups] using h2

theorem frameGroups_group (j : Int) (l : List TickInput) (e : Event)
    (h : e ∈ frameGroups env j l) :
    ∃ i : Nat, i < l.length ∧ e.group? = some (groupName (j + i)) := by
  induction l generalizing j with
  | nil => simp [frameGroups] at h
  | cons x l ih =>
    simp only [frameGroups, List.mem_cons] at h
    rcases h with h | h | h
    · exact ⟨0, by simp, by simp [h, depthWrite, Event.group?]⟩
    · exact ⟨0, by simp, by simp [h, colorWrite, Event.group?]⟩
    · obtain ⟨i, hi, hg⟩ := ih (j + 1) h
      refine ⟨i + 1, by simpa using hi, ?_⟩
      rw [hg]
      congr 2
      push_cast
      ring

theorem frameGroups_group_at (j : Int) (l : List TickInput) (p : Nat) (e : Event)
    (h : (frameGroups env j l)[p]? = some e) :
    e.group? = some (groupName (j + (p / 2 : Nat))) := by
  have hp : p < 2 * l.length := by
    have := (List.getElem?_eq_some.mp h).1
    rwa [frameGroups_length] at this
  have hi : p / 2 < l.length := by omega
  obtain ⟨h1, h2⟩ := frameGroups_getElem? env j l (p / 2) l[p / 2] (List.getElem?_eq_getElem hi)
  rcases Nat.mod_two_eq_zero_or_one p with hm | hm
  · have : 2 * (p / 2) = p := by omega
    rw [this, h] at h1
    rw [Option.some.inj h1]
    rfl
  · have : 2 * (p / 2) + 1 = p := by omega
    rw [this, h] at h2
    rw [Option.some.inj h2]
    rfl

theorem ticksOf_replicate (n : Nat) (inp : TickInput) :
    ticksOf (List.replicate n (.tick inp)) = List.replicate n inp := by
  induction n with
  | zero => rfl
  | succ n ih => simp [List.replicate_succ, ticksOf, ih]

/-- A stretch of the main loop in which every tick acquires both frames and
escape is not pressed: the process keeps running, the counter advances by the
number of ticks, and exactly the frame groups of those ticks are written. -/
theorem foldl_step_continues (evs : List LoopEvent) (s : State)
    (hrun : s.exited = none) (hcount : 0 ≤ s.count)
    (hok : ∀ ev ∈ evs, ev.continues = true)
    (hfit : s.count + (ticksOf evs).length < 2 ^ 31) :
    (evs.foldl (step env) s).exited = none ∧
    (evs.foldl (step env) s).count = s.count + (ticksOf evs).length ∧
    (evs.foldl (step env) s).pointers = s.pointers ∧
    frameWrites (evs.foldl (step env) s).trace =
      frameWrites s.trace ++ frameGroups env s.count (ticksOf evs) ∧
    scalarWrites (evs.foldl (step env) s).trace = scalarWrites s.trace := by
  induction evs generalizing s with
  | nil => simp [ticksOf, frameGroups, hrun]
  | cons ev evs ih =>
    have hev : ev.continues = true := hok ev (by simp)
    have hrest : ∀ e ∈ evs, e.continues = true := fun e he => hok e (by simp [he])
    rw [List.foldl_cons]
    cases ev with
    | tick inp =>
      simp only [ticksOf, List.length_cons, Nat.cast_add, Nat.cast_one] at hfit ⊢
      obtain ⟨h1, h2, h3, h4, h5, -⟩ := display_acquired env inp s hev
      have hstep : step env s (.tick inp) = display env inp s := by
        simp [step, hrun]
      rw [hstep]
      rw [wrapInt32_id _ (by omega) (by omega)] at h2
      obtain ⟨k1, k2, k3, k4, k5⟩ := ih (display env inp s) (by rw [h1, hrun]) (by omega) hrest
        (by rw [h2]; omega)
      refine ⟨k1, ?_, ?_, ?_, ?_⟩
      · rw [k2, h2]; ring
      · rw [k3, h3]
      · rw [k4, h4, h2]; simp [frameGroups]
      · rw [k5, h5]
    | key code =>
      simp only [ticksOf] at hfit ⊢
      have hne : code ≠ 27 := by simpa [LoopEvent.continues] using hev
      obtain ⟨h1, h2, h3, h4⟩ := keyboard_continues code s hne
      have hstep : step env s (.key code) = keyboard code s := by
        simp [step, hrun]
      rw [hstep]
      obtain ⟨k1, k2, k3, k4, k5⟩ := ih (keyboard code s) (by rw [h1, hrun]) (by omega) hrest
        (by rw [h2]; exact hfit)
      refine ⟨k1, ?_, ?_, ?_, ?_⟩
      · rw [k2, h2]
      · rw [k3, h3]
      · rw [k4, h4, h2]
      · rw [k5, h4]

end steps

/-! ## Start-up, and whole runs -/

section startup

variable (env : Env)

/-- When `main` enters the main loop, the start-up went through: three
arguments, `glutInit` returned and left a level argument, camera and dump file
are enabled, nothing failed to allocate; the state is then the start state
with all six globals live and the start-up calls in the trace. -/
theorem main_entered (argv : List String) (h : (main env argv).exited = none) :
    ∃ argv' level, argv.length = 3 ∧ env.glutInit argv = .returns argv' ∧
      argv'.getD 2 none = some level ∧
      env.camera.enabled = true ∧ env.dumpEnabled = true ∧
      main env argv =
        { State.start with
          g_camera := .live, g_dump := .live, g_dumper := .live,
          g_depth := .live, g_colorized_depth := .live, g_color := .live,
          trace := startupTrace env argv (argv'.getD 1 none) level } := by
  by_cases hargc : argv.length = 3
  swap
  · simp [main, hargc, emit] at h
  cases hg : env.glutInit argv with
  | exits status => simp [main, hargc, hg, emit] at h
  | returns argv' =>
    cases hn1 : env.allocFails .camera
    swap
    · simp [main, hargc, hg, hn1, emit, abort] at h
    cases hcam : env.camera.enabled
    · simp [main, hargc, hg, hn1, hcam, emit] at h
    cases hn2 : env.allocFails .dump
    swap
    · simp [main, hargc, hg, hn1, hcam, hn2, emit, abort] at h
    cases hl : argv'.getD 2 none with
    | none =>
      rw [List.getD_eq_getElem?_getD] at hl
      simp [main, hargc, hg, hn1, hcam, hn2, hl, emit] at h
    | some level =>
      have hl' := hl
      rw [List.getD_eq_getElem?_getD] at hl'
      cases hn3 : env.allocFails .dumper
      swap
      · simp [main, hargc, hg, hn1, hcam, hn2, hl', hn3, emit, abort] at h
      cases hdump : env.dumpEnabled
      · simp [main, hargc, hg, hn1, hcam, hn2, hl', hn3, hdump, emit] at h
      cases ha1 : newArrayFails env .depth (env.camera.width .DEPTH_SENSOR)
          (env.camera.height .DEPTH_SENSOR)
      swap
      · simp [main, hargc, hg, hn1, hcam, hn2, hl', hn3, hdump, ha1, emit, abort] at h
      cases ha2 : newArrayFails env .colorizedDepth (env.camera.width .DEPTH_SENSOR)
          (env.camera.height .DEPTH_SENSOR)
      swap
      · simp [main, hargc, hg, hn1, hcam, hn2, hl', hn3, hdump, ha1, ha2, emit, abort] at h
      cases ha3 : newArrayFails env .color (env.camera.width .COLOR_SENSOR)
          (env.camera.height .COLOR_SENSOR)
      swap
      · simp [main, hargc, hg, hn1, hcam, hn2, hl', hn3, hdump, ha1, ha2, ha3, emit,
          abort] at h
      refine ⟨argv', level, hargc, rfl, hl, rfl, rfl, ?_⟩
      simp [main, hargc, hg, hn1, hcam, hn2, hl', hn3, hdump, ha1, ha2, ha3, emit,
        State.start, startupTrace]

/-- Conversely, `main` enters the main loop whenever there are three arguments,
`glutInit` returns and leaves a level argument, the camera and the dump file
are enabled, and the three objects and the three buffers can be allocated. -/
theorem main_enters (argv : List String) (argv' : List (Option String)) (level : String)
    (hargc : argv.length = 3) (hg : env.glutInit argv = .returns argv')
    (hl : argv'.getD 2 none = some level)
    (hcam : env.camera.enabled = true) (hdump : env.dumpEnabled = true)
    (hn1 : env.allocFails .camera = false) (hn2 : env.allocFails .dump = false)
    (hn3 : env.allocFails .dumper = false)
    (ha1 : newArrayFails env .depth (env.camera.width .DEPTH_SENSOR)
      (env.camera.height .DEPTH_SENSOR) = false)
    (ha2 : newArrayFails env .colorizedDepth (env.camera.width .DEPTH_SENSOR)
      (env.camera.height .DEPTH_SENSOR) = false)
    (ha3 : newArrayFails env .color (env.camera.width .COLOR_SENSOR)
      (env.camera.height .COLOR_SENSOR) = false) :
    (main env argv).exited = none := by
  rw [List.getD_eq_getElem?_getD] at hl
  simp [main, hargc, hg, hn1, hn2, hn3, hcam, hl, hdump, ha1, ha2, ha3, emit, State.start]

theorem scalarWrites_startupTrace (argv : List String) (file : Option String)
    (level : String) :
    scalarWrites (startupTrace env argv file level) =
      (startupTrace env argv file level).drop 5 := by
  simp [scalarWrites, startupTrace, List.filter, Event.isScalar]

theorem frameWrites_startupTrace (argv : List String) (file : Option String)
    (level : String) :
    frameWrites (startupTrace env argv file level) = [] := by
  simp [frameWrites, startupTrace, List.filter, Event.isWrite]

/-- The whole run after a successful start, as long as every tick acquires
both frames and escape is not pressed. -/
theorem run_continues (argv : List String) (evs : List LoopEvent)
    (hstart : (main env argv).exited = none)
    (hok : ∀ ev ∈ evs, ev.continues = true)
    (hfit : ((ticksOf evs).length : Int) < 2 ^ 31) :
    (run env argv evs).exited = none ∧
    (run env argv evs).count = (ticksOf evs).length ∧
    (run env argv evs).pointers = [.live, .live, .live, .live, .live, .live] ∧
    frameWrites (run env argv evs).trace = frameGroups env 0 (ticksOf evs) ∧
    scalarWrites (run env argv evs).trace = scalarWrites (main env argv).trace := by
  obtain ⟨argv', level, -, -, -, -, -, hm⟩ := main_entered env argv hstart
  obtain ⟨h1, h2, h3, h4, h5⟩ := foldl_step_continues env evs (main env argv)
    hstart (by rw [hm]; simp [State.start]) hok
    (by rw [hm]; simpa [State.start] using hfit)
  unfold run
  refine ⟨h1, ?_, ?_, ?_, h5⟩
  · rw [h2, hm]; simp [State.start]
  · rw [h3, hm]; rfl
  · rw [h4, hm]
    simp [State.start, frameWrites_startupTrace]

end startup

/-! ## Agreement on capture and persistence -/

section views

variable (env : Env)

theorem sameCapture_tick (inp : TickInput) (s t : State) (h : SameCapture s t) :
    SameCapture (step env s (.tick inp)) (step env t (.tick inp)) := by
  obtain ⟨h1, h2, h3, h4⟩ := h
  unfold step
  rw [← h1]
  split
  · exact ⟨h1, h2, h3, h4⟩
  · obtain ⟨a1, a2⟩ := display_exited_count env inp s
    obtain ⟨b1, b2⟩ := display_exited_count env inp t
    obtain ⟨c1, c2⟩ := tickEvents_capture env s.g_display t.g_display s.count inp
    refine ⟨by rw [a1, b1, h1], by rw [a2, b2, h2], ?_, ?_⟩
    · rw [display_trace, display_trace]
      unfold updateCalls at *
      rw [List.filter_append, List.filter_append, h3, c1, h2]
    · rw [display_trace, display_trace]
      unfold frameWrites at *
      rw [List.filter_append, List.filter_append, h4, c2, h2]

theorem sameCapture_viewKey (code : Nat) (s : State) (h : code = 49 ∨ code = 50) :
    SameCapture (step env s (.key code)) s := by
  unfold step
  split
  · exact ⟨rfl, rfl, rfl, rfl⟩
  · obtain ⟨h1, h2, -, h4⟩ := keyboard_continues code s (by omega)
    exact ⟨h1, h2, by rw [h4], by rw [h4]⟩

theorem SameCapture.trans {s t u : State} (h : SameCapture s t) (k : SameCapture t u) :
    SameCapture s u :=
  ⟨h.1.trans k.1, h.2.1.trans k.2.1, h.2.2.1.trans k.2.2.1, h.2.2.2.trans k.2.2.2⟩

theorem SameCapture.symm {s t : State} (h : SameCapture s t) : SameCapture t s :=
  ⟨h.1.symm, h.2.1.symm, h.2.2.1.symm, h.2.2.2.symm⟩

/-- A stretch of ticks and view-mode keys agrees, on capture and persistence,
with the stretch of its ticks alone. -/
theorem sameCapture_ticksOnly (evs : List LoopEvent) (s t : State) (h : SameCapture s t)
    (hk : ∀ ev ∈ evs, ev.isTickOrViewKey = true) :
    SameCapture (evs.foldl (step env) s) (((ticksOf evs).map .tick).foldl (step env) t) ∧
    countsAfterTicks env s evs = countsAfterTicks env t ((ticksOf evs).map .tick) := by
  induction evs generalizing s t with
  | nil => exact ⟨h, rfl⟩
  | cons ev evs ih =>
    have hrest : ∀ e ∈ evs, e.isTickOrViewKey = true := fun e he => hk e (by simp [he])
    cases ev with
    | tick inp =>
      have hs := sameCapture_tick env inp s t h
      obtain ⟨k1, k2⟩ := ih _ _ hs hrest
      simp only [ticksOf, List.map_cons, List.foldl_cons, countsAfterTicks]
      exact ⟨k1, by rw [k2, hs.2.1]⟩
    | key code =>
      have hc : code = 49 ∨ code = 50 := by
        simpa [LoopEvent.isTickOrViewKey] using hk (.key code) (by simp)
      have hs := (sameCapture_viewKey env code s hc).trans h
      obtain ⟨k1, k2⟩ := ih _ _ hs hrest
      simp only [ticksOf, List.foldl_cons, countsAfterTicks]
      exact ⟨k1, k2⟩

end views

/-! ## C1 -/

/-- C1: after a successful start (`main` enters the main loop), a run whose
first N ticks (N within the range of the `int` frame counter) all acquire both
frames issues exactly N frame groups: 2N dataset writes, tick i writing
`DEPTH` then `COLOR` under the group
named by `sprintf "/FRAME%04d"` of i, for i = 0, ..., N-1; the N group names are
pairwise different, the counter ends at N, and whatever happens afterwards
these writes stay the first 2N dataset writes of the run. -/
theorem successful_ticks_write_contiguous_groups (env : Env) (argv : List String)
    (evs : List LoopEvent)
    (hstart : (main env argv).exited = none)
    (hok : ∀ ev ∈ evs, ev.continues = true)
    (hfit : ((ticksOf evs).length : Int) < 2 ^ 31) :
    frameWrites (run env argv evs).trace = frameGroups env 0 (ticksOf evs) ∧
    (frameWrites (run env argv evs).trace).length = 2 * (ticksOf evs).length ∧
    (∀ (i : Nat) (inp : TickInput), (ticksOf evs)[i]? = some inp →
      (frameWrites (run env argv evs).trace)[2 * i]? = some (depthWrite env i inp) ∧
      (frameWrites (run env argv evs).trace)[2 * i + 1]? = some (colorWrite env i inp)) ∧
    (∀ i j : Nat, i < (ticksOf evs).length → j < (ticksOf evs).length → i ≠ j →
      groupName i ≠ groupName j) ∧
    (run env argv evs).count = (ticksOf evs).length ∧
    (run env argv evs).exited = none ∧
    (∀ rest : List LoopEvent, ∃ later,
      frameWrites (run env argv (evs ++ rest)).trace =
        frameGroups env 0 (ticksOf evs) ++ later) := by
  obtain ⟨h1, h2, -, h4, -⟩ := run_continues env argv evs hstart hok hfit
  refine ⟨h4, ?_, ?_, ?_, h2, h1, ?_⟩
  rotate_right
  · intro rest
    obtain ⟨later, hl, -⟩ := foldl_step_trace env rest (run env argv evs)
    refine ⟨frameWrites later, ?_⟩
    have : run env argv (evs ++ rest) = rest.foldl (step env) (run env argv evs) := by
      unfold run
      rw [List.foldl_append]
    rw [this, hl, ← h4]
    unfold frameWrites
    rw [List.filter_append]
  · rw [h4, frameGroups_length]
  · intro i inp hi
    rw [h4]
    simpa using frameGroups_getElem? env 0 (ticksOf evs) i inp hi
  · intro i j _ _ hij h
    have := groupName_injective i j (by positivity) (by positivity) h
    exact hij (by exact_mod_cast this)

/-- C1, witness: two successful ticks with a view-mode key in between write four
datasets, the third of them the `DEPTH` dataset of frame 1, and leave the
counter at 2. -/
theorem successful_ticks_write_contiguous_groups_witness :
    (frameWrites (run sampleEnv sampleArgv
        [.tick goodTick, .key 50, .tick goodTick]).trace).length = 4 ∧
      (frameWrites (run sampleEnv sampleArgv
        [.tick goodTick, .key 50, .tick goodTick]).trace)[2]? =
        some (depthWrite sampleEnv 1 goodTick) ∧
      (run sampleEnv sampleArgv [.tick goodTick, .key 50, .tick goodTick]).count = 2 :=
  have h := successful_ticks_write_contiguous_groups sampleEnv sampleArgv
    [.tick goodTick, .key 50, .tick goodTick] (by decide) (by decide) (by decide)
  ⟨h.2.1, (h.2.2.1 1 goodTick (by decide)).1, h.2.2.2.2.1⟩

/-! ## C2 -/

/-- C2: after a successful start (`main` enters the main loop), if the first
k-1 ticks acquire both frames
(k-1 within the range of the `int` counter) and on tick k the depth `Update` or
the color `Update` reports failure, then `display` ends in `close()`: the
process exits, every global is released, the counter still holds k-1, the
dataset writes of the whole run (whatever GLUT would deliver afterwards) are
exactly the frame groups 0..k-2, and no write is addressed to the group of
index k-1. -/
theorem update_failure_closes_before_write (env : Env) (argv : List String)
    (pre : List LoopEvent) (bad : TickInput) (post : List LoopEvent)
    (hstart : (main env argv).exited = none)
    (hok : ∀ ev ∈ pre, ev.continues = true)
    (hfit : ((ticksOf pre).length : Int) < 2 ^ 31)
    (hbad : bad.acquired = false) :
    (run env argv (pre ++ .tick bad :: post)).exited = some 0 ∧
    (run env argv (pre ++ .tick bad :: post)).pointers =
      [.deleted, .deleted, .deleted, .deleted, .deleted, .deleted] ∧
    (run env argv (pre ++ .tick bad :: post)).count = (ticksOf pre).length ∧
    frameWrites (run env argv (pre ++ .tick bad :: post)).trace =
      frameGroups env 0 (ticksOf pre) ∧
    (∀ e ∈ frameWrites (run env argv (pre ++ .tick bad :: post)).trace,
      e.group? ≠ some (groupName (ticksOf pre).length)) := by
  obtain ⟨h1, h2, h3, h4, -⟩ := run_continues env argv pre hstart hok hfit
  obtain ⟨k1, k2, k3, k4, -⟩ := display_update_failed env bad (run env argv pre) hbad
  have hstep : step env (run env argv pre) (.tick bad) = display env bad (run env argv pre) := by
    simp [step, h1]
  have hrun : run env argv (pre ++ .tick bad :: post) = display env bad (run env argv pre) := by
    unfold run
    rw [List.foldl_append, List.foldl_cons]
    unfold run at hstep
    rw [hstep]
    exact foldl_step_exited env post _ (by unfold run at k1; rw [k1]; rfl)
  rw [hrun]
  refine ⟨k1, ?_, ?_, ?_, ?_⟩
  · rw [k3, h3]; rfl
  · rw [k2, h2]
  · rw [k4, h4]
  · intro e he
    rw [k4, h4] at he
    obtain ⟨i, hi, hg⟩ := frameGroups_group env 0 (ticksOf pre) e he
    rw [hg]
    intro h
    have := groupName_injective _ _ (by positivity) (by positivity) (Option.some.inj h)
    omega

/-- C2, witness: one successful tick, then a tick whose depth `Update` fails: the
process has exited and only the group of frame 0 was written, although a
further tick is offered. -/
theorem update_failure_closes_before_write_witness :
    (run sampleEnv sampleArgv
        ([.tick goodTick, .key 49] ++ .tick depthFailTick :: [.tick goodTick])).exited = some 0 ∧
      frameWrites (run sampleEnv sampleArgv
        ([.tick goodTick, .key 49] ++ .tick depthFailTick :: [.tick goodTick])).trace =
        frameGroups sampleEnv 0 [goodTick] :=
  have h := update_failure_closes_before_write sampleEnv sampleArgv
    [.tick goodTick, .key 49] depthFailTick [.tick goodTick] (by decide) (by decide)
    (by decide) (by decide)
  ⟨h.1, h.2.2.2.1⟩

/-! ## C3 -/

/-- C3, counterexample: in the tick `writeFailTick` both acquisitions succeed and
the `DEPTH` write fails, yet the process keeps running, the counter moves from
0 to 1, and the next tick writes its two datasets under `/FRAME0001`. -/
theorem write_failure_shutdown_counterexample :
    writeFailTick.acquired = true ∧ writeFailTick.depthWriteFailed = true ∧
    (run sampleEnv sampleArgv [.tick writeFailTick]).exited = none ∧
    (run sampleEnv sampleArgv [.tick writeFailTick]).count = 1 ∧
    frameWrites (run sampleEnv sampleArgv [.tick writeFailTick, .tick goodTick]).trace =
      [depthWrite sampleEnv 0 writeFailTick, colorWrite sampleEnv 0 writeFailTick,
       depthWrite sampleEnv 1 goodTick, colorWrite sampleEnv 1 goodTick] := by
  decide

/-- C3 (amended): in every tick of a running process in which both acquisitions
succeed, whether or not a Frame Store write fails, `display` issues the
`DEPTH` and the `COLOR` write, does not invoke `close()` (the process keeps
running and no global is released), increments the frame counter, and the next
successful tick writes again, under the next index. -/
theorem write_outcome_is_ignored (env : Env) (s : State) (inp next : TickInput)
    (hrun : s.exited = none) (hlo : 0 ≤ s.count) (hhi : s.count + 2 < 2 ^ 31)
    (hacq : inp.acquired = true) (hnext : next.acquired = true) :
    (step env s (.tick inp)).exited = none ∧
    (step env s (.tick inp)).count = s.count + 1 ∧
    (step env s (.tick inp)).pointers = s.pointers ∧
    frameWrites (step env s (.tick inp)).trace =
      frameWrites s.trace ++ [depthWrite env s.count inp, colorWrite env s.count inp] ∧
    frameWrites (step env (step env s (.tick inp)) (.tick next)).trace =
      frameWrites s.trace ++ [depthWrite env s.count inp, colorWrite env s.count inp,
        depthWrite env (s.count + 1) next, colorWrite env (s.count + 1) next] := by
  obtain ⟨h1, h2, h3, h4, -⟩ := foldl_step_continues env [.tick inp] s hrun hlo
    (by simpa [LoopEvent.continues] using hacq) (by simp [ticksOf]; omega)
  obtain ⟨-, -, -, k4, -⟩ := foldl_step_continues env [.tick inp, .tick next] s hrun hlo
    (by simp [LoopEvent.continues, hacq, hnext]) (by simp [ticksOf]; omega)
  simp only [List.foldl_cons, List.foldl_nil, ticksOf, List.length_cons, List.length_nil,
    frameGroups] at h1 h2 h3 h4 k4
  refine ⟨h1, by simpa using h2, h3, by simpa using h4, by simpa using k4⟩

/-- C3 (amended), witness: the first tick after start-up, with a failing `DEPTH`
write. -/
theorem write_outcome_is_ignored_witness :
    (step sampleEnv (main sampleEnv sampleArgv) (.tick writeFailTick)).exited = none ∧
    (step sampleEnv (main sampleEnv sampleArgv) (.tick writeFailTick)).count = 0 + 1 :=
  have h := write_outcome_is_ignored sampleEnv (main sampleEnv sampleArgv) writeFailTick goodTick
    (by decide) (by decide) (by decide) (by decide) (by decide)
  ⟨h.1, h.2.1⟩

/-! ## C4 -/

/-- C4, failing inputs: with a camera that is not enabled, and with a dump file
that cannot be created, `main` prints its diagnostic and returns -1 while the
objects constructed so far are still live; `close()` from the same states
would have released them, as it does on the `Update` failure path of
`display`. -/
theorem startup_failure_returns_without_close :
    (main cameraOffEnv sampleArgv).exited = some (-1) ∧
    (main cameraOffEnv sampleArgv).pointers = [.live, .null, .null, .null, .null, .null] ∧
    (main dumpOffEnv sampleArgv).exited = some (-1) ∧
    (main dumpOffEnv sampleArgv).pointers = [.live, .live, .live, .null, .null, .null] ∧
    (close (main dumpOffEnv sampleArgv)).pointers =
      [.deleted, .deleted, .deleted, .null, .null, .null] ∧
    (run sampleEnv sampleArgv [.tick depthFailTick]).exited = some 0 ∧
    (run sampleEnv sampleArgv [.tick depthFailTick]).pointers =
      [.deleted, .deleted, .deleted, .deleted, .deleted, .deleted] := by
  decide

/-! ## C5 -/

/-- C5, counterexample: with three arguments of which the compression level is
`-1` (or `abc`), `main` prints no usage message: it constructs the camera,
creates the dump file, passes `atoi` of the argument to `Compression`, and
enters the main loop. -/
theorem invalid_level_usage_counterexample :
    isNonNegativeInteger "-1" = false ∧
    (main sampleEnv ["camera_capture", "capture.h5", "-1"]).exited = none ∧
    Event.printf (usage ["camera_capture", "capture.h5", "-1"]) ∉
      (main sampleEnv ["camera_capture", "capture.h5", "-1"]).trace ∧
    (main sampleEnv ["camera_capture", "capture.h5", "-1"]).trace.take 5 =
      [.glutInit ["camera_capture", "capture.h5", "-1"], .newCamera,
       .newWrapper (some "capture.h5"), .compression (-1), .newDumper] ∧
    (main sampleEnv ["camera_capture", "capture.h5", "-1"]).pointers =
      [.live, .live, .live, .live, .live, .live] ∧
    isNonNegativeInteger "abc" = false ∧
    (main sampleEnv ["camera_capture", "capture.h5", "abc"]).exited = none ∧
    (main sampleEnv ["camera_capture", "capture.h5", "abc"]).trace.take 5 =
      [.glutInit ["camera_capture", "capture.h5", "abc"], .newCamera,
       .newWrapper (some "capture.h5"), .compression 0, .newDumper] := by
  decide

/-- C5 (amended): when the argument count is not 3, `main` prints the usage
message and returns -1 with nothing else done (no object constructed, no file
created, no buffer allocated).  When it is 3, whatever the text of the
compression-level argument, `main` prints no usage message and proceeds to
initialization: its first call is `glutInit`; if that call ends the process
nothing else happens; if it returns and the allocator does not fail, `main`
constructs the camera, and with an enabled camera it creates the dump file
named by `argv[1]` as `glutInit` left it and hands `atoi` of `argv[2]`, when
that is not null, to `Compression` unchecked. -/
theorem usage_only_on_argument_count (env : Env) (argv : List String) :
    if argv.length = 3 then
      Event.printf (usage argv) ∉ (main env argv).trace ∧
      (main env argv).trace.head? = some (.glutInit argv) ∧
      (∀ status, env.glutInit argv = .exits status →
        main env argv =
          { State.start with trace := [.glutInit argv], exited := some status }) ∧
      (∀ argv', env.glutInit argv = .returns argv' → env.allocFails .camera = false →
        (main env argv).g_camera = .live ∧
        (main env argv).trace.take 2 = [.glutInit argv, .newCamera] ∧
        (env.camera.enabled = true → env.allocFails .dump = false →
          (main env argv).g_dump = .live ∧
          (main env argv).trace.take 3 =
            [.glutInit argv, .newCamera, .newWrapper (argv'.getD 1 none)] ∧
          ∀ level, argv'.getD 2 none = some level →
            (main env argv).trace.take 4 =
              [.glutInit argv, .newCamera, .newWrapper (argv'.getD 1 none),
               .compression (atoi level)]))
    else
      main env argv =
        { State.start with trace := [.printf (usage argv)], exited := some (-1) } := by
  split
  swap
  · rename_i h
    unfold main
    rw [if_pos h]
    simp [emit, State.start]
  rename_i hargc
  have hu1 := usage_ne_unable argv
  cases hg : env.glutInit argv with
  | exits status =>
    simp [main, hargc, hg, emit, State.start]
  | returns argv' =>
    cases hn1 : env.allocFails .camera
    swap
    · simp [main, hargc, hg, hn1, emit, abort, State.start]
    cases hcam : env.camera.enabled
    · simp [main, hargc, hg, hn1, hcam, emit, State.start]
      exact hu1 _
    cases hn2 : env.allocFails .dump
    swap
    · simp [main, hargc, hg, hn1, hcam, hn2, emit, abort, State.start]
    cases hl : argv'.getD 2 none with
    | none =>
      have hl' := hl
      rw [List.getD_eq_getElem?_getD] at hl'
      simp [main, hargc, hg, hn1, hcam, hn2, hl', emit, State.start]
    | some level =>
      have hl' := hl
      rw [List.getD_eq_getElem?_getD] at hl'
      cases hn3 : env.allocFails .dumper
      swap
      · simp [main, hargc, hg, hn1, hcam, hn2, hl', hn3, emit, abort, State.start]
      cases hdump : env.dumpEnabled
      · simp [main, hargc, hg, hn1, hcam, hn2, hl', hn3, hdump, emit, State.start]
        exact hu1 _
      cases ha1 : newArrayFails env .depth (env.camera.width .DEPTH_SENSOR)
          (env.camera.height .DEPTH_SENSOR) <;>
        cases ha2 : newArrayFails env .colorizedDepth (env.camera.width .DEPTH_SENSOR)
          (env.camera.height .DEPTH_SENSOR) <;>
        cases ha3 : newArrayFails env .color (env.camera.width .COLOR_SENSOR)
          (env.camera.height .COLOR_SENSOR) <;>
        simp [main, hargc, hg, hn1, hcam, hn2, hl', hn3, hdump, ha1, ha2, ha3, emit, abort,
          State.start]

/-- C5 (amended), witness: three arguments with the level `-1`. -/
theorem usage_only_on_argument_count_witness :
    (main sampleEnv ["camera_capture", "capture.h5", "-1"]).trace.take 4 =
      [.glutInit ["camera_capture", "capture.h5", "-1"], .newCamera,
       .newWrapper (some "capture.h5"), .compression (atoi "-1")] :=
  have h := usage_only_on_argument_count sampleEnv ["camera_capture", "capture.h5", "-1"]
  (((if_pos (by decide : ["camera_capture", "capture.h5", "-1"].length = 3) ▸ h).2.2.2
    [some "camera_capture", some "capture.h5", some "-1"] rfl rfl).2.2 rfl rfl).2.2 "-1" rfl

/-! ## C6 -/

/-- C6: after a successful start (`main` enters the main loop) the scalar writes
issued by `main` are exactly eight: `WIDTH`, `HEIGHT`, `FX`, `FY` under
`/INFORMATION/DEPTH_SENSOR` and under
`/INFORMATION/COLOR_SENSOR`; each (name, group) pair is written exactly once
and carries the camera's value for that stream; `main` issues no dataset write,
and everything a run appends to the trace afterwards contains no scalar write,
so the eight precede every frame write. -/
theorem startup_metadata_roundtrip (env : Env) (argv : List String)
    (hstart : (main env argv).exited = none) :
    scalarWrites (main env argv).trace =
      [ .writeScalar "WIDTH" "/INFORMATION/DEPTH_SENSOR"
          (.int (env.camera.width .DEPTH_SENSOR)) .H5T_NATIVE_INT,
        .writeScalar "HEIGHT" "/INFORMATION/DEPTH_SENSOR"
          (.int (env.camera.height .DEPTH_SENSOR)) .H5T_NATIVE_INT,
        .writeScalar "WIDTH" "/INFORMATION/COLOR_SENSOR"
          (.int (env.camera.width .COLOR_SENSOR)) .H5T_NATIVE_INT,
        .writeScalar "HEIGHT" "/INFORMATION/COLOR_SENSOR"
          (.int (env.camera.height .COLOR_SENSOR)) .H5T_NATIVE_INT,
        .writeScalar "FX" "/INFORMATION/DEPTH_SENSOR"
          (.float (env.camera.fx .DEPTH_SENSOR)) .H5T_NATIVE_FLOAT,
        .writeScalar "FY" "/INFORMATION/DEPTH_SENSOR"
          (.float (env.camera.fy .DEPTH_SENSOR)) .H5T_NATIVE_FLOAT,
        .writeScalar "FX" "/INFORMATION/COLOR_SENSOR"
          (.float (env.camera.fx .COLOR_SENSOR)) .H5T_NATIVE_FLOAT,
        .writeScalar "FY" "/INFORMATION/COLOR_SENSOR"
          (.float (env.camera.fy .COLOR_SENSOR)) .H5T_NATIVE_FLOAT ] ∧
    scalarValues (main env argv).trace "WIDTH" "/INFORMATION/DEPTH_SENSOR" =
      [.int (env.camera.width .DEPTH_SENSOR)] ∧
    scalarValues (main env argv).trace "HEIGHT" "/INFORMATION/DEPTH_SENSOR" =
      [.int (env.camera.height .DEPTH_SENSOR)] ∧
    scalarValues (main env argv).trace "FX" "/INFORMATION/DEPTH_SENSOR" =
      [.float (env.camera.fx .DEPTH_SENSOR)] ∧
    scalarValues (main env argv).trace "FY" "/INFORMATION/DEPTH_SENSOR" =
      [.float (env.camera.fy .DEPTH_SENSOR)] ∧
    scalarValues (main env argv).trace "WIDTH" "/INFORMATION/COLOR_SENSOR" =
      [.int (env.camera.width .COLOR_SENSOR)] ∧
    scalarValues (main env argv).trace "HEIGHT" "/INFORMATION/COLOR_SENSOR" =
      [.int (env.camera.height .COLOR_SENSOR)] ∧
    scalarValues (main env argv).trace "FX" "/INFORMATION/COLOR_SENSOR" =
      [.float (env.camera.fx .COLOR_SENSOR)] ∧
    scalarValues (main env argv).trace "FY" "/INFORMATION/COLOR_SENSOR" =
      [.float (env.camera.fy .COLOR_SENSOR)] ∧
    frameWrites (main env argv).trace = [] ∧
    ∀ evs : List LoopEvent, ∃ later,
      (run env argv evs).trace = (main env argv).trace ++ later ∧
      scalarWrites later = [] ∧
      scalarWrites (run env argv evs).trace = scalarWrites (main env argv).trace := by
  obtain ⟨argv', level, -, -, -, -, -, hm⟩ := main_entered env argv hstart
  have ht : (main env argv).trace = startupTrace env argv (argv'.getD 1 none) level := by
    rw [hm]
  rw [ht]
  refine ⟨by rw [scalarWrites_startupTrace]; rfl,
    by simp [scalarValues, startupTrace, List.filterMap],
    by simp [scalarValues, startupTrace, List.filterMap],
    by simp [scalarValues, startupTrace, List.filterMap],
    by simp [scalarValues, startupTrace, List.filterMap],
    by simp [scalarValues, startupTrace, List.filterMap],
    by simp [scalarValues, startupTrace, List.filterMap],
    by simp [scalarValues, startupTrace, List.filterMap],
    by simp [scalarValues, startupTrace, List.filterMap],
    frameWrites_startupTrace env argv _ _, ?_⟩
  intro evs
  obtain ⟨later, h1, h2⟩ := foldl_step_trace env evs (main env argv)
  refine ⟨later, by unfold run; rw [h1, ht], h2, ?_⟩
  unfold run
  rw [h1, ht]
  unfold scalarWrites at *
  rw [List.filter_append, h2, List.append_nil]

/-- C6, witness: the metadata of the sample camera. -/
theorem startup_metadata_roundtrip_witness :
    scalarValues (main sampleEnv sampleArgv).trace "WIDTH" "/INFORMATION/COLOR_SENSOR" =
      [.int 1] ∧
    scalarValues (main sampleEnv sampleArgv).trace "HEIGHT" "/INFORMATION/DEPTH_SENSOR" =
      [.int 2] :=
  have h := startup_metadata_roundtrip sampleEnv sampleArgv (by decide)
  ⟨h.2.2.2.2.2.1, h.2.2.1⟩

/-! ## C7 -/

/-- C7: two runs from the same start that are fed the same sequence of tick
inputs, with presses of the keys `1` and `2` interleaved in any (possibly
different) way, make the same camera `Update` calls, issue the same dataset
writes (name, group, buffer, byte size, dimensions, rank, element type), have
the same frame counter after each tick and end in the same process status; the
keyboard handler changes nothing but `g_display` on these two keys. -/
theorem view_toggles_do_not_affect_capture (env : Env) (argv : List String)
    (evs₁ evs₂ : List LoopEvent)
    (h₁ : ∀ ev ∈ evs₁, ev.isTickOrViewKey = true)
    (h₂ : ∀ ev ∈ evs₂, ev.isTickOrViewKey = true)
    (hticks : ticksOf evs₁ = ticksOf evs₂) :
    updateCalls (run env argv evs₁).trace = updateCalls (run env argv evs₂).trace ∧
    frameWrites (run env argv evs₁).trace = frameWrites (run env argv evs₂).trace ∧
    countsAfterTicks env (main env argv) evs₁ = countsAfterTicks env (main env argv) evs₂ ∧
    (run env argv evs₁).count = (run env argv evs₂).count ∧
    (run env argv evs₁).exited = (run env argv evs₂).exited ∧
    (∀ s : State, keyboard 49 s = { s with g_display := .DEPTH_SENSOR }) ∧
    (∀ s : State, keyboard 50 s = { s with g_display := .COLOR_SENSOR }) := by
  have hrefl : SameCapture (main env argv) (main env argv) := ⟨rfl, rfl, rfl, rfl⟩
  obtain ⟨a1, a2⟩ := sameCapture_ticksOnly env evs₁ _ _ hrefl h₁
  obtain ⟨b1, b2⟩ := sameCapture_ticksOnly env evs₂ _ _ hrefl h₂
  rw [hticks] at a1 a2
  obtain ⟨c1, c2, c3, c4⟩ := a1.trans b1.symm
  exact ⟨c3, c4, a2.trans b2.symm, c2, c1, fun s => rfl, fun s => rfl⟩

/-- C7, witness: the same two ticks with two different interleavings of the keys
`1` and `2`. -/
theorem view_toggles_do_not_affect_capture_witness :
    frameWrites (run sampleEnv sampleArgv [.tick goodTick, .key 50, .tick writeFailTick]).trace =
      frameWrites (run sampleEnv sampleArgv
        [.key 50, .key 49, .tick goodTick, .tick writeFailTick, .key 50]).trace ∧
    countsAfterTicks sampleEnv (main sampleEnv sampleArgv)
        [.tick goodTick, .key 50, .tick writeFailTick] =
      countsAfterTicks sampleEnv (main sampleEnv sampleArgv)
        [.key 50, .key 49, .tick goodTick, .tick writeFailTick, .key 50] :=
  have h := view_toggles_do_not_affect_capture sampleEnv sampleArgv
    [.tick goodTick, .key 50, .tick writeFailTick]
    [.key 50, .key 49, .tick goodTick, .tick writeFailTick, .key 50]
    (by decide) (by decide) (by decide)
  ⟨h.2.1, h.2.2.1⟩

/-! ## C8 -/

/-- C8, counterexample: a camera that reports 0 x 0 for both streams starts up
(`new T[0]` succeeds), both acquisitions of its first tick succeed, and the
tick writes a `DEPTH` dataset of dimensions (0, 0) and a `COLOR` dataset of
dimensions (0, 0, 3), each with byte size 0: both datasets are empty.  A
camera that reports -1 x -1 starts up as well (the element count is 1); the
dimensions passed are then 2^64 - 1, not the -1 stored as metadata, and the
byte sizes 2 and 3 are not the product of the dimensions and the element
size. -/
theorem empty_dataset_counterexample :
    (main emptyFrameEnv sampleArgv).exited = none ∧ emptyTick.acquired = true ∧
    frameWrites (run emptyFrameEnv sampleArgv [.tick emptyTick]).trace =
      [ .write "DEPTH" "/FRAME0000" [] 0 [0, 0] 2 .H5T_NATIVE_SHORT false,
        .write "COLOR" "/FRAME0000" [] 0 [0, 0, 3] 3 .H5T_NATIVE_UCHAR false ] ∧
    (main negativeFrameEnv sampleArgv).exited = none ∧
    frameWrites (run negativeFrameEnv sampleArgv [.tick goodTick]).trace =
      [ .write "DEPTH" "/FRAME0000" [0, 100, 8192, 9000] 2
          [18446744073709551615, 18446744073709551615] 2 .H5T_NATIVE_SHORT false,
        .write "COLOR" "/FRAME0000" [1, 2, 3] 3
          [18446744073709551615, 18446744073709551615, 3] 3 .H5T_NATIVE_UCHAR false ] ∧
    scalarValues (main negativeFrameEnv sampleArgv).trace "WIDTH"
      "/INFORMATION/DEPTH_SENSOR" = [.int (-1)] := by
  decide

/-- C8 (amended): with a camera that reports non-negative `int` dimensions for
both streams, a tick in which both acquisitions succeed adds exactly two
dataset writes under the group of the current frame counter: `DEPTH`, of rank
2, dimensions (height, width) of the depth stream, a 16-bit element type; then
`COLOR`, of rank 3, dimensions (height, width, 3) of the color stream, an 8-bit
element type.  The byte size passed with each is the product of its
dimensions times its element size; it is not zero exactly when the height and
the width of the stream are both positive, which the program does not check;
and after a successful start the dimensions are the `HEIGHT` / `WIDTH` values
stored in the root metadata of the same stream. -/
theorem frame_datasets_match_metadata (env : Env) (argv : List String) (inp : TickInput)
    (s : State)
    (hstart : (main env argv).exited = none) (hacq : inp.acquired = true)
    (hgeo : ∀ k : Sensor, (0 ≤ env.camera.width k ∧ env.camera.width k < 2 ^ 31) ∧
      (0 ≤ env.camera.height k ∧ env.camera.height k < 2 ^ 31)) :
    frameWrites (display env inp s).trace = frameWrites s.trace ++
      [ .write "DEPTH" (groupName s.count) inp.depth.frame
          ([(env.camera.height .DEPTH_SENSOR).toNat, (env.camera.width .DEPTH_SENSOR).toNat].prod
            * H5Type.bytes .H5T_NATIVE_SHORT)
          [(env.camera.height .DEPTH_SENSOR).toNat, (env.camera.width .DEPTH_SENSOR).toNat]
          2 .H5T_NATIVE_SHORT inp.depthWriteFailed,
        .write "COLOR" (groupName s.count) inp.color.frame
          ([(env.camera.height .COLOR_SENSOR).toNat, (env.camera.width .COLOR_SENSOR).toNat,
              3].prod * H5Type.bytes .H5T_NATIVE_UCHAR)
          [(env.camera.height .COLOR_SENSOR).toNat, (env.camera.width .COLOR_SENSOR).toNat, 3]
          3 .H5T_NATIVE_UCHAR inp.colorWriteFailed ] ∧
    8 * H5Type.bytes .H5T_NATIVE_SHORT = 16 ∧
    8 * H5Type.bytes .H5T_NATIVE_UCHAR = 8 ∧
    (0 < [(env.camera.height .DEPTH_SENSOR).toNat, (env.camera.width .DEPTH_SENSOR).toNat].prod
        * H5Type.bytes .H5T_NATIVE_SHORT ↔
      0 < env.camera.height .DEPTH_SENSOR ∧ 0 < env.camera.width .DEPTH_SENSOR) ∧
    (0 < [(env.camera.height .COLOR_SENSOR).toNat, (env.camera.width .COLOR_SENSOR).toNat,
        3].prod * H5Type.bytes .H5T_NATIVE_UCHAR ↔
      0 < env.camera.height .COLOR_SENSOR ∧ 0 < env.camera.width .COLOR_SENSOR) ∧
    scalarValues (main env argv).trace "HEIGHT" "/INFORMATION/DEPTH_SENSOR" =
      [.int ((env.camera.height .DEPTH_SENSOR).toNat : Int)] ∧
    scalarValues (main env argv).trace "WIDTH" "/INFORMATION/DEPTH_SENSOR" =
      [.int ((env.camera.width .DEPTH_SENSOR).toNat : Int)] ∧
    scalarValues (main env argv).trace "HEIGHT" "/INFORMATION/COLOR_SENSOR" =
      [.int ((env.camera.height .COLOR_SENSOR).toNat : Int)] ∧
    scalarValues (main env argv).trace "WIDTH" "/INFORMATION/COLOR_SENSOR" =
      [.int ((env.camera.width .COLOR_SENSOR).toNat : Int)] := by
  obtain ⟨⟨dw0, dw1⟩, dh0, dh1⟩ := hgeo .DEPTH_SENSOR
  obtain ⟨⟨cw0, cw1⟩, ch0, ch1⟩ := hgeo .COLOR_SENSOR
  obtain ⟨argv', level, -, -, -, -, -, hm⟩ := main_entered env argv hstart
  have ht : (main env argv).trace = startupTrace env argv (argv'.getD 1 none) level := by
    rw [hm]
  obtain ⟨-, -, -, hw, -⟩ := display_acquired env inp s hacq
  have hd := sizeMul_dims sizeofDepth _ _ (by decide) dw0 dw1 dh0 dh1
  have hc := sizeMul_dims sizeofColor _ _ (by decide) cw0 cw1 ch0 ch1
  refine ⟨?_, rfl, rfl, ?_, ?_, ?_, ?_, ?_, ?_⟩
  · rw [hw]
    unfold depthWrite colorWrite
    rw [hd, hc, toSize_of_nonneg _ dw0 dw1, toSize_of_nonneg _ dh0 dh1,
      toSize_of_nonneg _ cw0 cw1, toSize_of_nonneg _ ch0 ch1]
    simp [H5Type.bytes, sizeofDepth, sizeofColor, Nat.mul_assoc]
  · have := toNat_mul_pos_iff _ _ dh0 dw0
    rw [List.prod_cons, List.prod_singleton]
    exact (Nat.mul_pos_iff_of_pos_right (by decide)).trans this
  · have := toNat_mul_pos_iff _ _ ch0 cw0
    rw [List.prod_cons, List.prod_cons, List.prod_singleton, ← Nat.mul_assoc]
    exact (Nat.mul_pos_iff_of_pos_right (by decide)).trans
      ((Nat.mul_pos_iff_of_pos_right (by decide)).trans this)
  · rw [ht, Int.toNat_of_nonneg dh0]
    simp [scalarValues, startupTrace, List.filterMap]
  · rw [ht, Int.toNat_of_nonneg dw0]
    simp [scalarValues, startupTrace, List.filterMap]
  · rw [ht, Int.toNat_of_nonneg ch0]
    simp [scalarValues, startupTrace, List.filterMap]
  · rw [ht, Int.toNat_of_nonneg cw0]
    simp [scalarValues, startupTrace, List.filterMap]

/-- C8 (amended), witness: the two dataset writes of the first tick with the
sample camera (depth 2 x 2, color 1 x 1). -/
theorem frame_datasets_match_metadata_witness :
    frameWrites (display sampleEnv goodTick (main sampleEnv sampleArgv)).trace =
      [ .write "DEPTH" "/FRAME0000" [0, 100, 8192, 9000] 8 [2, 2] 2 .H5T_NATIVE_SHORT false,
        .write "COLOR" "/FRAME0000" [1, 2, 3] 3 [1, 1, 3] 3 .H5T_NATIVE_UCHAR false ] :=
  have h := frame_datasets_match_metadata sampleEnv sampleArgv goodTick
    (main sampleEnv sampleArgv) (by decide) (by decide)
    (fun k => by cases k <;> decide)
  h.1

/-! ## C9 -/

/-- C9, counterexample: the frame counter reaches 10000 (the tick after 10000
successful ticks writes under that index), and the name of frame 10000 is
`/FRAME10000`, one character longer than the name `/FRAME9999` of frame 9999,
and sorted before it. -/
theorem group_name_width_counterexample :
    (frameWrites (run sampleEnv sampleArgv
      (List.replicate 10001 (.tick goodTick))).trace)[20000]? =
      some (depthWrite sampleEnv 10000 goodTick) ∧
    groupName 9999 = "/FRAME9999" ∧ groupName 10000 = "/FRAME10000" ∧
    (groupName 9999).length = 10 ∧ (groupName 10000).length = 11 ∧
    groupName 10000 < groupName 9999 := by
  refine ⟨?_, by decide, by decide, by decide, by decide, ?_⟩
  · obtain ⟨-, -, -, h, -⟩ := run_continues sampleEnv sampleArgv
      (List.replicate 10001 (.tick goodTick)) (by decide)
      (fun ev hev => by rw [List.eq_of_mem_replicate hev]; decide)
      (by rw [ticksOf_replicate, List.length_replicate]; norm_num)
    rw [h, ticksOf_replicate]
    have := (frameGroups_getElem? sampleEnv 0 (List.replicate 10001 goodTick) 10000 goodTick
      (by rw [List.getElem?_replicate]; simp)).1
    exact this
  · rw [String.lt_iff_toList_lt]
    decide

/-- C9 (amended): for every frame index n ≥ 0 the group name is `/FRAME`
followed by decimal digits denoting n, left-padded with `0` to at least four
digits.  For n < 10000 the name has exactly ten characters and the names of
such frames sort in index order; from n = 10000 on the digits are those of n
without padding and the name is longer than ten characters. -/
theorem group_name_format (n : Int) (hn : 0 ≤ n) :
    (groupName n).toList = "/FRAME".toList ++ fmt04d n ∧
    (∀ c ∈ fmt04d n, IsDecimalDigit c) ∧
    digitsValue (fmt04d n) = n.toNat ∧
    (fmt04d n).length = max 4 (Nat.digits 10 n.toNat).length ∧
    (n < 10000 → (groupName n).length = 10 ∧
      ∀ m : Int, n < m → m < 10000 → groupName n < groupName m) ∧
    (10000 ≤ n → fmt04d n = decimal n.toNat ∧ 10 < (groupName n).length) := by
  have hlen := groupName_length n hn
  refine ⟨rfl, ?_, ?_, ?_, ?_, ?_⟩
  · rw [fmt04d_nonneg n hn]
    exact zeroPad_decimal_digits 4 _ (by norm_num)
  · rw [fmt04d_nonneg n hn]
    exact digitsValue_zeroPad_decimal 4 _ (by norm_num)
  · rw [fmt04d_nonneg n hn]
    exact zeroPad_decimal_length 4 _ (by norm_num)
  · intro h
    have := digits_length_le n.toNat 4 (by omega)
    exact ⟨by rw [hlen]; omega, fun m hnm hm => groupName_lt n m hn hnm hm⟩
  · intro h
    have hgt := digits_length_gt n.toNat 4 (by omega)
    refine ⟨?_, by rw [hlen]; omega⟩
    rw [fmt04d_nonneg n hn]
    have hd := zeroPad_decimal_length 4 n.toNat (by norm_num)
    unfold zeroPad at hd ⊢
    have : 4 - (decimal n.toNat).length = 0 := by
      rw [List.length_append, List.length_replicate] at hd
      omega
    rw [this]
    rfl

/-- C9 (amended), witness: frame 42. -/
theorem group_name_format_witness :
    digitsValue (fmt04d 42) = 42 ∧ (groupName 42).length = 10 ∧ groupName 42 < groupName 43 :=
  have h := group_name_format 42 (by decide)
  ⟨h.2.2.1, (h.2.2.2.2.1 (by decide)).1, (h.2.2.2.2.1 (by decide)).2 43 (by decide) (by decide)⟩

/-! ## C10 -/

/-- C10: group names of distinct non-negative `int` indices are different
strings, and each fits, with its terminator, the 64-byte buffer `group`.  A
call of `display` keeps the dataset writes issued so far and adds only writes
addressed to the group of the current counter value; in a run after a
successful start whose ticks all acquire both frames (their number within the
range of the `int` counter), dataset writes of different ticks are addressed
to different groups, so no tick writes into the group of an earlier one. -/
theorem frames_are_never_overwritten (env : Env) (argv : List String) (evs : List LoopEvent)
    (hstart : (main env argv).exited = none)
    (hok : ∀ ev ∈ evs, ev.continues = true)
    (hfit : ((ticksOf evs).length : Int) < 2 ^ 31) :
    (∀ i j : Int, 0 ≤ i → i < 2 ^ 31 → 0 ≤ j → j < 2 ^ 31 → i ≠ j →
      groupName i ≠ groupName j) ∧
    (∀ i : Int, 0 ≤ i → i < 2 ^ 31 → (groupName i).utf8ByteSize + 1 ≤ 64) ∧
    (∀ (inp : TickInput) (s : State), ∃ new,
      frameWrites (display env inp s).trace = frameWrites s.trace ++ new ∧
      ∀ e ∈ new, e.group? = some (groupName s.count)) ∧
    (∀ (p q : Nat) (e f : Event),
      (frameWrites (run env argv evs).trace)[p]? = some e →
      (frameWrites (run env argv evs).trace)[q]? = some f →
      p / 2 ≠ q / 2 → e.group? ≠ f.group?) := by
  refine ⟨?_, ?_, ?_, ?_⟩
  · intro i j hi _ hj _ hij h
    exact hij (groupName_injective i j hi hj h)
  · intro i hi0 hi1
    rw [groupName_utf8ByteSize i hi0, groupName_length i hi0]
    have := digits_length_le i.toNat 10 (by omega)
    omega
  · intro inp s
    cases hacq : inp.acquired
    · exact ⟨[], by rw [(display_update_failed env inp s hacq).2.2.2.1]; simp, by simp⟩
    · refine ⟨_, (display_acquired env inp s hacq).2.2.2.1, ?_⟩
      intro e he
      simp only [List.mem_cons, List.mem_singleton, List.not_mem_nil, or_false] at he
      rcases he with rfl | rfl <;> rfl
  · intro p q e f hp hq hne h
    obtain ⟨-, -, -, ht, -⟩ := run_continues env argv evs hstart hok hfit
    rw [ht] at hp hq
    rw [frameGroups_group_at env 0 _ p e hp, frameGroups_group_at env 0 _ q f hq] at h
    have := groupName_injective _ _ (by positivity) (by positivity) (Option.some.inj h)
    omega

/-- C10, witness: the names of the smallest and of the largest non-negative `int`
index differ, and the longest name fits the buffer. -/
theorem frames_are_never_overwritten_witness :
    groupName 0 ≠ groupName 2147483647 ∧ (groupName 2147483647).utf8ByteSize + 1 ≤ 64 :=
  have h := frames_are_never_overwritten sampleEnv sampleArgv
    [.tick goodTick, .key 50, .tick goodTick] (by decide) (by decide) (by decide)
  ⟨h.1 0 2147483647 (by decide) (by decide) (by decide) (by decide) (by decide),
   h.2.1 2147483647 (by decide) (by decide)⟩

end CameraCapture
